import Mathlib

/-!
# ACUCyS Christmas CTF website

A shallow embedding of `assets/js/countdown.js`, `assets/js/teaser.js`,
`assets/js/theme.js`, `assets/js/forms.js` and of the referral and FAQ code of
`assets/js/main.js`.

Conventions of the embedding:

* a JavaScript `Date` is its time value, an integer number of milliseconds
  since the epoch, or the Invalid Date whose time value is `NaN`;
* a number that may be `NaN` is an `Option Int`, `none` standing for `NaN`;
  every comparison with `NaN` is false;
* a DOM element looked up by `getElementById` / `querySelector` is an
  `Option`, `none` when the page has no such element;
* every method is a function from the state before the call to the state
  after it; the state carries a log of the calls made, in order;
* an exception that ends a method is recorded in the state (`thrown`), and
  the method ends at the call that threw: `classList.add` in `setTheme`.
-/

namespace CountdownTimer

/-! ## Data model -/

/-- The value of a field that holds `null` or a `Date`. -/
inductive DateRef where
  | null
  | invalid
  | valid (ms : Int)
deriving DecidableEq, Repr

/-- ToNumber of a date field: `null` is `0`, the Invalid Date is `NaN`. -/
def DateRef.toNumber : DateRef → Option Int
  | .null => some 0
  | .invalid => none
  | .valid ms => some ms

/-- The JavaScript expression `d - now` for a field `d` and a valid date `now`. -/
def DateRef.minus (d : DateRef) (now : Int) : Option Int :=
  match d.toNumber with
  | some ms => some (ms - now)
  | none => none

/-- The JavaScript comparison `x <= 0`. -/
def leZero : Option Int → Bool
  | some x => decide (x ≤ 0)
  | none => false

/-- The calls the timer makes, logged in order. -/
inductive Call where
  | showEventLive
  | showEventFinished
  | showCountdownToStart (timeUntilStart : Int)
  | updateCountdownDisplay (days hours minutes seconds : Int)
  | updateCTAButtons (primaryText secondaryText : String)
  | showToast (message : String)
  | setInterval (handle : Nat)
  | clearInterval (handle : Nat)
deriving DecidableEq, Repr

/-- The `#hero-register` link. -/
structure Anchor where
  textContent : String
  href : String
deriving DecidableEq, Repr

/-- The part of the page and of the window the timer reads and writes. -/
structure Page where
  /-- `innerHTML` of `#countdown-timer`. -/
  countdownTimer : Option String
  /-- `textContent` of `.countdown-label`. -/
  countdownLabel : Option String
  /-- `textContent` of `#days`. -/
  daysEl : Option String
  /-- `textContent` of `#hours`. -/
  hoursEl : Option String
  /-- `textContent` of `#minutes`. -/
  minutesEl : Option String
  /-- `textContent` of `#seconds`. -/
  secondsEl : Option String
  heroRegister : Option Anchor
  /-- `textContent` of `#discord-btn`. -/
  discordBtn : Option String
  /-- Whether `typeof showToast === "function"`. -/
  hasShowToast : Bool
  /-- The messages passed to `showToast`, oldest first. -/
  toasts : List String
  /-- The handles of the repeating timers that are scheduled. -/
  intervals : List Nat
  /-- The last handle `setInterval` returned; handles are positive. -/
  lastHandle : Nat
deriving DecidableEq, Repr

/-- The fields of a `CountdownTimer`, with the page it works on and the log. -/
structure Timer where
  startTime : DateRef
  endTime : DateRef
  intervalId : Option Nat
  isEventLive : Bool
  isEventFinished : Bool
  page : Page
  calls : List Call
deriving DecidableEq, Repr

/-- The fields of `window.ctfApp.content` the timer reads. -/
structure Content where
  start : Option String
  end_ : Option String
deriving DecidableEq, Repr

/-! ## Platform functions -/

/-- The expression `a || b` for an optional string `a`: the empty string and
`undefined` are falsy. -/
def orDefault (a : Option String) (b : String) : String :=
  match a with
  | some s => if s = "" then b else s
  | none => b

/-- The expression `new Date(str)`: it never throws, an unparseable string
gives the Invalid Date. The parser of the platform is a parameter. -/
def newDate (parse : String → Option Int) (str : String) : Except String DateRef :=
  match parse str with
  | some ms => .ok (.valid ms)
  | none => .ok .invalid

/-- The date a string parses to: the Invalid Date when it does not parse. -/
def parsedDate (parse : String → Option Int) (str : String) : DateRef :=
  match parse str with
  | some ms => .valid ms
  | none => .invalid

/-- Number.prototype.toString for an integer, in decimal. -/
def numberToString (n : Int) : String :=
  if n < 0 then String.mk ('-' :: Nat.toDigits 10 n.natAbs)
  else String.mk (Nat.toDigits 10 n.natAbs)

/-- String.prototype.padStart with a one-character filler. -/
def padStart (s : String) (targetLength : Nat) (fill : Char) : String :=
  String.mk (List.replicate (targetLength - s.data.length) fill ++ s.data)

/-- The expression `Math.floor(a / b)` on integers, `b` positive. -/
def floorDiv (a b : Int) : Int := Int.fdiv a b

/-- The remainder operator `a % b`, which takes the sign of `a`. -/
def jsMod (a b : Int) : Int := Int.tmod a b

/-- The value of two decimal digits, `none` when one is no digit. -/
def twoDigits (a b : Char) : Option Nat :=
  if a.isDigit ∧ b.isDigit then some ((a.toNat - 48) * 10 + (b.toNat - 48)) else none

/-- Days from 1970-01-01 to the given day of the proleptic Gregorian calendar. -/
def daysFromCivil (y m d : Int) : Int :=
  let y1 := if m ≤ 2 then y - 1 else y
  let era := y1 / 400
  let yoe := y1 - era * 400
  let mp := if 2 < m then m - 3 else m + 9
  let doy := (153 * mp + 2) / 5 + d - 1
  let doe := yoe * 365 + yoe / 4 - yoe / 100 + doy
  era * 146097 + doe - 719468

/-- Number of days of month `m` of year `y`. -/
def daysInMonth (y m : Nat) : Nat :=
  if m = 2 then (if y % 4 = 0 ∧ (y % 100 ≠ 0 ∨ y % 400 = 0) then 29 else 28)
  else if m = 4 ∨ m = 6 ∨ m = 9 ∨ m = 11 then 30 else 31

/-- A parser for the one shape of the ECMAScript date-time string format the
site's configuration uses, `YYYY-MM-DDTHH:mm:ss±HH:mm`. Every other string is
rejected. It stands for the platform's parser where a concrete one is needed. -/
def parseIso (str : String) : Option Int :=
  match str.data with
  | [y1, y2, y3, y4, a, m1, m2, b, d1, d2, c, h1, h2, e, n1, n2, f, s1, s2, sg, o1, o2, g, o3, o4] =>
    if a = '-' ∧ b = '-' ∧ c = 'T' ∧ e = ':' ∧ f = ':' ∧ g = ':' ∧ (sg = '+' ∨ sg = '-') then
      match twoDigits y1 y2, twoDigits y3 y4, twoDigits m1 m2, twoDigits d1 d2,
        twoDigits h1 h2, twoDigits n1 n2, twoDigits s1 s2, twoDigits o1 o2, twoDigits o3 o4 with
      | some yh, some yl, some mo, some dd, some hh, some mi, some ss, some oh, some om =>
        let y := yh * 100 + yl
        if 1 ≤ mo ∧ mo ≤ 12 ∧ 1 ≤ dd ∧ dd ≤ daysInMonth y mo ∧ hh ≤ 23 ∧ mi ≤ 59 ∧ ss ≤ 59
            ∧ oh ≤ 23 ∧ om ≤ 59 then
          let localMs : Int :=
            daysFromCivil y mo dd * 86400000 + hh * 3600000 + mi * 60000 + ss * 1000
          let offsetMs : Int := oh * 3600000 + om * 60000
          some (if sg = '+' then localMs - offsetMs else localMs + offsetMs)
        else none
      | _, _, _, _, _, _, _, _, _ => none
    else none
  | _ => none

/-! ## Methods of `CountdownTimer` -/

/-- The state the constructor sets up before it calls `init`. -/
def fresh (page : Page) : Timer :=
  { startTime := .null, endTime := .null, intervalId := none,
    isEventLive := false, isEventFinished := false, page := page, calls := [] }

def defaultStart : String := "2025-12-14T12:00:00+11:00"

def defaultEnd : String := "2025-12-15T12:00:00+11:00"

/-- Method `loadEventTimes`; `content` is `window.ctfApp.content` when
`window.ctfApp && window.ctfApp.content` is truthy, `now` the clock. -/
def loadEventTimes (parse : String → Option Int) (content : Option Content) (now : Int)
    (t : Timer) : Timer :=
  let startTimeStr :=
    match content with
    | some c => orDefault c.start defaultStart
    | none => defaultStart
  let endTimeStr :=
    match content with
    | some c => orDefault c.end_ defaultEnd
    | none => defaultEnd
  match newDate parse startTimeStr, newDate parse endTimeStr with
  | .ok s, .ok e => { t with startTime := s, endTime := e }
  | _, _ =>
    let demoStart := now + 7 * 24 * 60 * 60 * 1000
    let demoEnd := demoStart + 24 * 60 * 60 * 1000
    { t with startTime := .valid demoStart, endTime := .valid demoEnd }

/-- Method `startCountdown`: schedules the repeating tick. -/
def startCountdown (t : Timer) : Timer :=
  let handle := t.page.lastHandle + 1
  { t with
    intervalId := some handle
    page := { t.page with intervals := handle :: t.page.intervals, lastHandle := handle }
    calls := t.calls ++ [.setInterval handle] }

/-- Method `updateCTAButtons`. -/
def updateCTAButtons (primaryText secondaryText : String) (t : Timer) : Timer :=
  let hero := t.page.heroRegister.map fun a =>
    { textContent := primaryText, href := if t.isEventLive then "#register" else a.href : Anchor }
  let discord := t.page.discordBtn.map fun old => if secondaryText = "" then old else secondaryText
  { t with
    page := { t.page with heroRegister := hero, discordBtn := discord }
    calls := t.calls ++ [.updateCTAButtons primaryText secondaryText] }

def liveMarkup : String := "
        <div class=\"live-indicator\">
          <span class=\"live-dot\"></span>
          <span class=\"live-text\">LIVE NOW</span>
        </div>
      "

def finishedMarkup : String := "
        <div class=\"finished-indicator\">
          <span class=\"finished-text\">Event Finished</span>
        </div>
      "

/-- Method `showEventLive`. -/
def showEventLive (t : Timer) : Timer :=
  let t1 : Timer :=
    { t with
      page := { t.page with
        countdownTimer := t.page.countdownTimer.map fun _ => liveMarkup
        countdownLabel := t.page.countdownLabel.map fun _ => "Event is live!" }
      calls := t.calls ++ [.showEventLive] }
  let t2 := updateCTAButtons "Join now" "Join Discord" t1
  if t2.page.hasShowToast then
    { t2 with
      page := { t2.page with toasts := t2.page.toasts ++ ["The CTF is now live! Join the competition."] }
      calls := t2.calls ++ [.showToast "The CTF is now live! Join the competition."] }
  else t2

/-- Method `showEventFinished`. -/
def showEventFinished (t : Timer) : Timer :=
  let t1 : Timer :=
    { t with
      page := { t.page with
        countdownTimer := t.page.countdownTimer.map fun _ => finishedMarkup
        countdownLabel := t.page.countdownLabel.map fun _ => "Thanks for participating!" }
      calls := t.calls ++ [.showEventFinished] }
  let t2 := updateCTAButtons "View Results" "Join Discord" t1
  match t2.intervalId with
  | some handle =>
    if handle ≠ 0 then
      { t2 with
        page := { t2.page with intervals := t2.page.intervals.filter (· ≠ handle) }
        calls := t2.calls ++ [.clearInterval handle] }
    else t2
  | none => t2

/-- Method `updateCountdownDisplay`. -/
def updateCountdownDisplay (days hours minutes seconds : Int) (t : Timer) : Timer :=
  { t with
    page := { t.page with
      daysEl := t.page.daysEl.map fun _ => padStart (numberToString days) 2 '0'
      hoursEl := t.page.hoursEl.map fun _ => padStart (numberToString hours) 2 '0'
      minutesEl := t.page.minutesEl.map fun _ => padStart (numberToString minutes) 2 '0'
      secondsEl := t.page.secondsEl.map fun _ => padStart (numberToString seconds) 2 '0' }
    calls := t.calls ++ [.updateCountdownDisplay days hours minutes seconds] }

/-- The four numbers `showCountdownToStart` computes. -/
structure Parts where
  days : Int
  hours : Int
  minutes : Int
  seconds : Int
deriving DecidableEq, Repr

/-- The first four lines of `showCountdownToStart`. -/
def decompose (timeUntilStart : Int) : Parts :=
  { days := floorDiv timeUntilStart (1000 * 60 * 60 * 24)
    hours := floorDiv (jsMod timeUntilStart (1000 * 60 * 60 * 24)) (1000 * 60 * 60)
    minutes := floorDiv (jsMod timeUntilStart (1000 * 60 * 60)) (1000 * 60)
    seconds := floorDiv (jsMod timeUntilStart (1000 * 60)) 1000 }

/-- Method `showCountdownToStart`. -/
def showCountdownToStart (timeUntilStart : Int) (t : Timer) : Timer :=
  let p := decompose timeUntilStart
  let t1 := updateCountdownDisplay p.days p.hours p.minutes p.seconds
    { t with calls := t.calls ++ [.showCountdownToStart timeUntilStart] }
  { t1 with
    page := { t1.page with countdownLabel := t1.page.countdownLabel.map fun _ => "Event starts in:" } }

/-- Method `updateCountdown`, run when the clock reads `now`. -/
def updateCountdown (now : Int) (t : Timer) : Timer :=
  let timeUntilStart := t.startTime.minus now
  let timeUntilEnd := t.endTime.minus now
  if leZero timeUntilStart && !t.isEventLive then
    showEventLive { t with isEventLive := true }
  else if leZero timeUntilEnd && !t.isEventFinished then
    showEventFinished { t with isEventFinished := true }
  else
    match timeUntilStart with
    | some d => if 0 < d then showCountdownToStart d t else t
    | none => t

/-- Method `init`, run by the constructor. -/
def init (parse : String → Option Int) (content : Option Content) (now : Int) (t : Timer) : Timer :=
  updateCountdown now (startCountdown (loadEventTimes parse content now t))

/-- The expression `new CountdownTimer()`. -/
def construct (parse : String → Option Int) (content : Option Content) (now : Int)
    (page : Page) : Timer :=
  init parse content now (fresh page)

/-- What can happen to a constructed timer: the interval fires (or `CTFApp.init`
calls `updateCountdown`), or `CTFApp.init` calls `loadEventTimes`. -/
inductive Action where
  | tick (now : Int)
  | load (content : Option Content) (now : Int)
deriving DecidableEq, Repr

def step (parse : String → Option Int) (a : Action) (t : Timer) : Timer :=
  match a with
  | .tick now => updateCountdown now t
  | .load content now => loadEventTimes parse content now t

def run (parse : String → Option Int) (as : List Action) (t : Timer) : Timer :=
  as.foldl (fun s a => step parse a s) t

/-- The ticks of the interval alone, at the clock readings `nows`. -/
def ticks (nows : List Int) (t : Timer) : Timer :=
  nows.foldl (fun s now => updateCountdown now s) t

/-- How many times `c` was called. -/
def fired (c : Call) (t : Timer) : Nat := t.calls.count c

/-- The value of a decimal digit character. -/
def digitValue (c : Char) : Nat := c.toNat - 48

/-- The number a string of decimal digits denotes. -/
def decimalValue (str : String) : Nat :=
  str.data.foldl (fun acc c => 10 * acc + digitValue c) 0

/-- The string `str` is made of decimal digits only, denotes `n`, and has at
least two characters, exactly two when `n` is below 100 and only then. -/
def PaddedDecimal (str : String) (n : Int) : Prop :=
  str.data.all Char.isDigit = true ∧ (decimalValue str : Int) = n ∧ 2 ≤ str.length ∧
    (str.length = 2 ↔ n < 100)

/-- A page that has every element the timer looks up, and `showToast`. -/
def samplePage : Page :=
  { countdownTimer := some "", countdownLabel := some "Event starts in:",
    daysEl := some "00", hoursEl := some "00", minutesEl := some "00", secondsEl := some "00",
    heroRegister := some { textContent := "Register", href := "#register" },
    discordBtn := some "Discord", hasShowToast := true, toasts := [], intervals := [],
    lastHandle := 0 }

/-- The bookkeeping of the interval with handle `h` scheduled on a page whose
other timers are `base`: the timer holds `h`, `setInterval` was called once,
`showEventFinished` and `clearInterval h` were called exactly when
`isEventFinished` is set, and `h` is scheduled exactly until then. -/
def IntervalInv (h : Nat) (base : List Nat) (t : Timer) : Prop :=
  t.intervalId = some h ∧ h ≠ 0 ∧
  (∀ k, fired (.setInterval k) t = if k = h then 1 else 0) ∧
  fired .showEventFinished t = (if t.isEventFinished = true then 1 else 0) ∧
  fired (.clearInterval h) t = (if t.isEventFinished = true then 1 else 0) ∧
  t.page.intervals = (if t.isEventFinished = true then base.filter (· ≠ h) else h :: base)

end CountdownTimer

namespace TeaserChallenge

/-! ## Data model of the teaser challenge -/

/-- The field `challenge` of a `TeaserChallenge`. -/
structure Challenge where
  question : String
  answer : String
  alternatives : List String
deriving DecidableEq, Repr

/-- The `#teaser-answer` input. -/
structure Input where
  value : String
  disabled : Bool
deriving DecidableEq, Repr

/-- The `#teaser-submit` button. -/
structure Button where
  disabled : Bool
deriving DecidableEq, Repr

/-- The `#teaser-result` panel. -/
structure ResultDiv where
  className : String
  innerHTML : String
  /-- The value of `style.display`. -/
  display : String
deriving DecidableEq, Repr

/-- The calls the widget makes, logged in order. -/
inductive Call where
  | showSuccess
  | showError
  | clearResult
  | saveState
  | setupShareButton
  | trackSolve
  | showToast (message : String)
  | setTimeout (delay : Nat)
  | setupTeaserInteraction
  | loadPreviousState
  | showPreviousSuccess
deriving DecidableEq, Repr

/-- The part of the page, of the window and of `localStorage` the widget
reads and writes. -/
structure Page where
  answerInput : Option Input
  submitBtn : Option Button
  resultDiv : Option ResultDiv
  /-- The entries of `localStorage`, one per key. -/
  storage : List (String × String)
  /-- Whether `typeof showToast === "function"`. -/
  hasShowToast : Bool
  /-- The messages passed to `showToast`, oldest first. -/
  toasts : List String
  /-- Whether `typeof Analytics !== "undefined"`. -/
  hasAnalytics : Bool
  /-- The events passed to `Analytics.track`, oldest first. -/
  tracked : List String
  /-- The delays of the pending `clearResult` timeouts, oldest first. -/
  timeouts : List Nat
deriving DecidableEq, Repr

/-- The fields of a `TeaserChallenge`, with the page it works on and the log. -/
structure Teaser where
  challenge : Challenge
  isSolved : Bool
  page : Page
  calls : List Call
deriving DecidableEq, Repr

/-! ## Platform functions -/

/-- The characters `String.prototype.trim` strips: WhiteSpace and
LineTerminator of ECMAScript. -/
def isWhiteSpace (c : Char) : Bool :=
  c.toNat = 0x09 || c.toNat = 0x0A || c.toNat = 0x0B || c.toNat = 0x0C || c.toNat = 0x0D ||
  c.toNat = 0x20 || c.toNat = 0xA0 || c.toNat = 0x1680 ||
  (0x2000 ≤ c.toNat && c.toNat ≤ 0x200A) ||
  c.toNat = 0x2028 || c.toNat = 0x2029 || c.toNat = 0x202F || c.toNat = 0x205F ||
  c.toNat = 0x3000 || c.toNat = 0xFEFF

/-- String.prototype.trim. -/
def trim (str : String) : String :=
  String.mk ((str.data.dropWhile isWhiteSpace).reverse.dropWhile isWhiteSpace).reverse

/-- The lower-case form of one character. It is exact on ASCII. Outside ASCII
only U+212A (to `k`) and U+0130 (to `i` followed by U+0307) have an ASCII
letter in their lower-case form and they are mapped so; every other character
is kept as it is, its lower-case form not being ASCII either. -/
def lowerChar (c : Char) : List Char :=
  if c.toNat = 0x212A then ['k']
  else if c.toNat = 0x0130 then ['i', Char.ofNat 0x0307]
  else if 'A'.toNat ≤ c.toNat ∧ c.toNat ≤ 'Z'.toNat then [Char.ofNat (c.toNat + 32)]
  else [c]

/-- String.prototype.toLowerCase, character by character. -/
def toLowerCase (str : String) : String :=
  String.mk (str.data.map lowerChar).flatten

/-- Method `localStorage.setItem`. -/
def setItem (key value : String) (storage : List (String × String)) : List (String × String) :=
  (key, value) :: storage.filter (fun kv => kv.1 ≠ key)

/-- Method `localStorage.getItem`, `none` for `null`. -/
def getItem (key : String) (storage : List (String × String)) : Option String :=
  (storage.find? (fun kv => kv.1 = key)).map (fun kv => kv.2)

/-! ## Methods of `TeaserChallenge` -/

/-- The challenge the constructor sets. -/
def theChallenge : Challenge :=
  { question := "What's the most common password in the world? (Hint: it's not 'password')"
    answer := "123456"
    alternatives := ["password", "admin", "qwerty", "letmein", "welcome"] }

/-- The state the constructor sets up before it calls `init`. -/
def fresh (page : Page) : Teaser :=
  { challenge := theChallenge, isSolved := false, page := page, calls := [] }

/-- Method `checkAnswer`. -/
def checkAnswer (t : Teaser) (userAnswer : String) : Bool :=
  let correctAnswer := toLowerCase t.challenge.answer
  let alternatives := t.challenge.alternatives.map toLowerCase
  userAnswer == correctAnswer || alternatives.contains userAnswer

/-- Method `saveState`; `nowIso` is `new Date().toISOString()`. -/
def saveState (nowIso : String) (t : Teaser) : Teaser :=
  { t with
    page := { t.page with
      storage := setItem "ctf_teaser_solve_time" nowIso (setItem "ctf_teaser_solved" "true" t.page.storage) }
    calls := t.calls ++ [.saveState] }

def successMarkup : String := "
      <div class=\"success-content\">
        <div class=\"success-icon\">🎉</div>
        <h4>Well done!</h4>
        <p>You've solved the teaser challenge. Ready for the real thing?</p>
        <div class=\"success-actions\">
          <button class=\"btn btn-primary\" id=\"share-success\">Share your success</button>
          <a href=\"#register\" class=\"btn btn-outline\">Register for CTF</a>
        </div>
      </div>
    "

def errorMarkup : String := "
      <div class=\"error-content\">
        <div class=\"error-icon\">🤔</div>
        <h4>Not quite right</h4>
        <p>Try again! Think about the most commonly used passwords.</p>
      </div>
    "

/-- Method `setupShareButton`: the listener it adds is not part of the state. -/
def setupShareButton (t : Teaser) : Teaser :=
  { t with calls := t.calls ++ [.setupShareButton] }

/-- Method `showSuccess`. -/
def showSuccess (nowIso : String) (t : Teaser) : Teaser :=
  match t.page.resultDiv with
  | none => { t with calls := t.calls ++ [.showSuccess] }
  | some _ =>
    let t1 := saveState nowIso { t with isSolved := true, calls := t.calls ++ [.showSuccess] }
    let t2 : Teaser :=
      { t1 with
        page := { t1.page with
          resultDiv := some
            { className := "teaser-result success", innerHTML := successMarkup, display := "block" }
          answerInput := t1.page.answerInput.map fun i => { i with disabled := true }
          submitBtn := t1.page.submitBtn.map fun _ => { disabled := true } } }
    let t3 := setupShareButton t2
    if t3.page.hasShowToast then
      { t3 with
        page := { t3.page with toasts := t3.page.toasts ++ ["Challenge solved! Great work!"] }
        calls := t3.calls ++ [.showToast "Challenge solved! Great work!"] }
    else t3

/-- Method `showError`. -/
def showError (t : Teaser) : Teaser :=
  match t.page.resultDiv with
  | none => { t with calls := t.calls ++ [.showError] }
  | some _ =>
    { t with
      page := { t.page with
        resultDiv := some
          { className := "teaser-result error", innerHTML := errorMarkup, display := "block" }
        timeouts := t.page.timeouts ++ [3000] }
      calls := t.calls ++ [.showError, .setTimeout 3000] }

/-- Method `clearResult`. -/
def clearResult (t : Teaser) : Teaser :=
  { t with
    page := { t.page with
      resultDiv := t.page.resultDiv.map fun _ =>
        { className := "teaser-result", innerHTML := "", display := "none" } }
    calls := t.calls ++ [.clearResult] }

/-- Method `trackSolve`. -/
def trackSolve (t : Teaser) : Teaser :=
  { t with
    page :=
      if t.page.hasAnalytics then { t.page with tracked := t.page.tracked ++ ["teaser_solve"] }
      else t.page
    calls := t.calls ++ [.trackSolve] }

/-- Method `handleSubmission`; `nowIso` is the clock as `saveState` reads it. -/
def handleSubmission (nowIso : String) (t : Teaser) : Teaser :=
  match t.page.answerInput, t.page.resultDiv with
  | some answerInput, some _ =>
    let userAnswer := toLowerCase (trim answerInput.value)
    let isCorrect := checkAnswer t userAnswer
    if isCorrect then trackSolve (showSuccess nowIso t)
    else showError t
  | _, _ => t

/-- Method `setupTeaserInteraction`: the listeners it adds are not part of the
state. -/
def setupTeaserInteraction (t : Teaser) : Teaser :=
  { t with calls := t.calls ++ [.setupTeaserInteraction] }

def previousSuccessMarkup : String := "
      <div class=\"success-content\">
        <div class=\"success-icon\">✅</div>
        <h4>Already solved!</h4>
        <p>You've already completed this challenge. Ready for the real CTF?</p>
        <div class=\"success-actions\">
          <button class=\"btn btn-primary\" id=\"share-success\">Share your success</button>
          <a href=\"#register\" class=\"btn btn-outline\">Register for CTF</a>
        </div>
      </div>
    "

/-- Method `showPreviousSuccess`. -/
def showPreviousSuccess (t : Teaser) : Teaser :=
  match t.page.resultDiv with
  | none => { t with calls := t.calls ++ [.showPreviousSuccess] }
  | some _ =>
    setupShareButton
      { t with
        page := { t.page with
          resultDiv := some
            { className := "teaser-result success", innerHTML := previousSuccessMarkup,
              display := "block" }
          answerInput := t.page.answerInput.map fun i => { i with disabled := true }
          submitBtn := t.page.submitBtn.map fun _ => { disabled := true } }
        calls := t.calls ++ [.showPreviousSuccess] }

/-- Method `loadPreviousState`. -/
def loadPreviousState (t : Teaser) : Teaser :=
  let isSolved := decide (getItem "ctf_teaser_solved" t.page.storage = some "true")
  if isSolved then
    showPreviousSuccess { t with isSolved := true, calls := t.calls ++ [.loadPreviousState] }
  else { t with calls := t.calls ++ [.loadPreviousState] }

/-- Method `init`, run by the constructor. -/
def init (t : Teaser) : Teaser :=
  loadPreviousState (setupTeaserInteraction t)

/-- The expression `new TeaserChallenge()` on a page. -/
def construct (page : Page) : Teaser :=
  init (fresh page)

/-- The answers the widget accepts. -/
def accepted : List String :=
  ["123456", "password", "admin", "qwerty", "letmein", "welcome"]

/-- A page that has the three elements of the widget, with `answer` typed in. -/
def samplePage (answer : String) : Page :=
  { answerInput := some { value := answer, disabled := false }
    submitBtn := some { disabled := false }
    resultDiv := some { className := "teaser-result", innerHTML := "", display := "none" }
    storage := [], hasShowToast := true, toasts := [], hasAnalytics := true, tracked := [],
    timeouts := [] }

/-- The user types `value` into the answer input. The `input` listener, which
`setupTeaserInteraction` adds when the page has the three elements, clears the
result panel when it is displayed. -/
def typeAnswer (value : String) (t : Teaser) : Teaser :=
  match t.page.answerInput with
  | none => t
  | some input =>
    let t1 : Teaser :=
      { t with page := { t.page with answerInput := some { input with value := value } } }
    match t1.page.submitBtn, t1.page.resultDiv with
    | some _, some resultDiv => if resultDiv.display ≠ "none" then clearResult t1 else t1
    | _, _ => t1

/-- The oldest pending timeout fires: the callback `showError` scheduled runs
`clearResult`. -/
def timeoutFires (t : Teaser) : Teaser :=
  match t.page.timeouts with
  | [] => t
  | _ :: rest => clearResult { t with page := { t.page with timeouts := rest } }

end TeaserChallenge

namespace ThemeManager

open TeaserChallenge (getItem setItem)

/-! ## Data model of the theme manager -/

/-- The `#theme-toggle` button. -/
structure Toggle where
  innerHTML : String
  ariaLabel : String
deriving DecidableEq, Repr

/-- The part of the document, of the window and of `localStorage` the theme
code reads and writes. -/
structure Page where
  /-- The class list of `document.documentElement`. -/
  classList : List String
  /-- The entries of `localStorage`, one per key. -/
  storage : List (String × String)
  /-- The value of `matchMedia('(prefers-color-scheme: dark)').matches`. -/
  prefersDark : Bool
  /-- Whether the document has a `.header-content` element. -/
  hasHeader : Bool
  /-- The `#theme-toggle` button of the document, when there is one. -/
  toggle : Option Toggle
  /-- The themes of the `themechange` events dispatched, oldest first. -/
  dispatched : List String
deriving DecidableEq, Repr

/-- The fields of a `ThemeManager`, with the page it works on. -/
structure Manager where
  /-- The field `currentTheme`, `none` for `null`. -/
  currentTheme : Option String
  page : Page
  /-- The name of the exception the last call ended with, `none` when it
  returned. -/
  thrown : Option String
deriving DecidableEq, Repr

/-- Whether a value read from storage or from the URL is truthy: `null` and
the empty string are not. -/
def truthy (v : Option String) : Bool :=
  match v with
  | some s => s ≠ ""
  | none => false

/-- Method `classList.remove` for one class. -/
def classRemove (cls : String) (classList : List String) : List String :=
  classList.filter (fun c => c ≠ cls)

/-- Whether a string has one of the ASCII whitespace characters of the DOM
standard: tab, line feed, form feed, carriage return, space. -/
def hasAsciiWhitespace (str : String) : Bool :=
  str.data.any fun c =>
    c.toNat = 0x09 || c.toNat = 0x0A || c.toNat = 0x0C || c.toNat = 0x0D || c.toNat = 0x20

/-- Method `classList.add` for one class. It throws a `SyntaxError` for the
empty token and an `InvalidCharacterError` for a token with ASCII whitespace,
and leaves the class list alone then. -/
def classAdd (cls : String) (classList : List String) : Except String (List String) :=
  if cls = "" then .error "SyntaxError"
  else if hasAsciiWhitespace cls then .error "InvalidCharacterError"
  else .ok (if cls ∈ classList then classList else classList ++ [cls])

/-! ## Methods of `ThemeManager` -/

/-- The state the constructor sets up before it calls `init`. -/
def fresh (page : Page) : Manager :=
  { currentTheme := none, page := page, thrown := none }

/-- Method `detectSystemPreference`. -/
def detectSystemPreference (m : Manager) : String :=
  if m.page.prefersDark then "dark" else "light"

/-- Method `getThemeIcon`. -/
def getThemeIcon (m : Manager) : String :=
  if m.currentTheme = some "light" then "🌙" else "☀️"

/-- Method `updateThemeToggleButton`. -/
def updateThemeToggleButton (m : Manager) : Manager :=
  { m with
    page := { m.page with
      toggle := m.page.toggle.map fun _ =>
        { innerHTML := getThemeIcon m
          ariaLabel := "Switch to " ++ (if m.currentTheme = some "light" then "dark" else "light")
            ++ " theme" } } }

/-- Method `dispatchThemeChangeEvent`. -/
def dispatchThemeChangeEvent (theme : String) (m : Manager) : Manager :=
  { m with page := { m.page with dispatched := m.page.dispatched ++ [theme] } }

/-- Method `setTheme`. When `classList.add` throws, the method ends there:
`currentTheme` is set and the two theme classes are removed, nothing is
stored, the button is not updated and no event is dispatched. -/
def setTheme (theme : String) (m : Manager) : Manager :=
  let removed := classRemove "dark-theme" (classRemove "light-theme" m.page.classList)
  match classAdd (theme ++ "-theme") removed with
  | .error e =>
    { currentTheme := some theme, page := { m.page with classList := removed }, thrown := some e }
  | .ok added =>
    let m1 : Manager :=
      { currentTheme := some theme
        page := { m.page with
          classList := added
          storage := setItem "theme" theme m.page.storage }
        thrown := none }
    dispatchThemeChangeEvent theme (updateThemeToggleButton m1)

/-- Method `loadSavedTheme`. -/
def loadSavedTheme (m : Manager) : Manager :=
  let savedTheme := getItem "theme" m.page.storage
  let systemPreference := detectSystemPreference m
  match savedTheme with
  | some saved => if saved ≠ "" then setTheme saved m else setTheme systemPreference m
  | none => setTheme systemPreference m

/-- Method `toggleTheme`. -/
def toggleTheme (m : Manager) : Manager :=
  let newTheme := if m.currentTheme = some "light" then "dark" else "light"
  setTheme newTheme m

/-- Method `createThemeToggleButton`: the button is created when the document
has none and reaches the document when there is a `.header-content`. -/
def createThemeToggleButton (m : Manager) : Manager :=
  match m.page.toggle with
  | some _ => m
  | none =>
    if m.page.hasHeader then
      { m with page := { m.page with
          toggle := some { innerHTML := getThemeIcon m, ariaLabel := "Toggle theme" } } }
    else m

/-- Method `setupThemeToggle`. -/
def setupThemeToggle (m : Manager) : Manager :=
  createThemeToggleButton m

/-- The listener `setupSystemPreferenceListener` registers, run for a change
event whose `matches` is `e`. -/
def onSystemPreferenceChange (e : Bool) (m : Manager) : Manager :=
  let savedTheme := getItem "theme" m.page.storage
  if !truthy savedTheme then
    let newTheme := if e then "dark" else "light"
    setTheme newTheme m
  else m

/-- Method `init`, run by the constructor; the listener it registers is
`onSystemPreferenceChange`. An exception of `loadSavedTheme` ends the method,
and the constructor with it. -/
def init (m : Manager) : Manager :=
  let m1 := loadSavedTheme m
  match m1.thrown with
  | some _ => m1
  | none => setupThemeToggle m1

/-- The expression `new ThemeManager()` on a page. -/
def construct (page : Page) : Manager :=
  init (fresh page)

/-- Method `resetToSystemPreference`. -/
def resetToSystemPreference (m : Manager) : Manager :=
  let m1 : Manager :=
    { m with page := { m.page with
        storage := m.page.storage.filter (fun kv => kv.1 ≠ "theme") } }
  setTheme (detectSystemPreference m1) m1

/-- The listener `CTFApp.initTheme` registers for the same change event, when
the application has been initialised. -/
def ctfAppOnChange (e : Bool) (page : Page) : Page :=
  if !truthy (getItem "theme" page.storage) then
    if e then
      let removed := classRemove "light-theme" page.classList
      match classAdd "dark-theme" removed with
      | .ok added => { page with classList := added }
      | .error _ => { page with classList := removed }
    else
      let removed := classRemove "dark-theme" page.classList
      match classAdd "light-theme" removed with
      | .ok added => { page with classList := added }
      | .error _ => { page with classList := removed }
  else page

/-- The operating system changes its colour scheme: the media query takes the
new value and the registered listeners run, the one of `ThemeManager` first,
then the one of `CTFApp` when `withApp` says it is registered. -/
def systemPreferenceChanged (withApp : Bool) (e : Bool) (m : Manager) : Manager :=
  let m1 := onSystemPreferenceChange e { m with page := { m.page with prefersDark := e } }
  if withApp then { m1 with page := ctfAppOnChange e m1.page } else m1

/-- A run of colour scheme changes. -/
def systemChanges (withApp : Bool) (es : List Bool) (m : Manager) : Manager :=
  es.foldl (fun s e => systemPreferenceChanged withApp e s) m

/-- A document with a header, no theme class and nothing stored. -/
def samplePage (prefersDark : Bool) : Page :=
  { classList := [], storage := [], prefersDark := prefersDark, hasHeader := true,
    toggle := none, dispatched := [] }

end ThemeManager

namespace CTFApp

open TeaserChallenge (getItem setItem)
open ThemeManager (truthy)

/-! ## Referral tracking -/

/-- The fields of a `CTFApp` the referral code lives in, with `localStorage`. -/
structure App where
  /-- The field `referralCode`, `none` for `null`. -/
  referralCode : Option String
  /-- The entries of `localStorage`, one per key. -/
  storage : List (String × String)
deriving DecidableEq, Repr

/-- Method `URLSearchParams.get` on the decoded name and value pairs of the
query string: the first value of the name, `none` for `null`. -/
def searchGet (name : String) (params : List (String × String)) : Option String :=
  (params.find? (fun kv => kv.1 = name)).map (fun kv => kv.2)

/-- Method `initReferralTracking`; `params` are the pairs of
`window.location.search`. -/
def initReferralTracking (params : List (String × String)) (app : App) : App :=
  let ref := searchGet "ref" params
  match ref with
  | some r =>
    if r ≠ "" then { referralCode := some r, storage := setItem "ctf_referral" r app.storage }
    else { app with referralCode := getItem "ctf_referral" app.storage }
  | none => { app with referralCode := getItem "ctf_referral" app.storage }

/-- Method `String.prototype.includes` for a one-character needle. -/
def includesChar (str : String) (c : Char) : Bool :=
  str.data.contains c

/-- Method `addReferralToUrl`. -/
def addReferralToUrl (app : App) (url : String) : String :=
  match app.referralCode with
  | none => url
  | some code =>
    if code = "" then url
    else
      let separator := if includesChar url '?' then "&" else "?"
      url ++ separator ++ "ref=" ++ code

/-! ## The FAQ list -/

/-- An entry of `content.faqs`. -/
structure Faq where
  q : String
  a : String
deriving DecidableEq, Repr

/-- A `.faq-item` element rendered by `populateFAQ`: its texts, whether its
class list has `active`, and the `aria-expanded` attribute of its button. -/
structure FaqItem where
  index : Nat
  q : String
  a : String
  active : Bool
  ariaExpanded : String
deriving DecidableEq, Repr

/-- The items `populateFAQ` appends for the entries `faqs`, numbered from
`index`. -/
def renderFaqs : Nat → List Faq → List FaqItem
  | _, [] => []
  | index, faq :: rest =>
    { index := index, q := faq.q, a := faq.a, active := false, ariaExpanded := "false" }
      :: renderFaqs (index + 1) rest

/-- Method `populateFAQ`: the `.faq-item` elements of the document afterwards.
Nothing is rendered when `content.faqs` is missing or the page has no
`#faq-list`. -/
def populateFAQ (faqs : Option (List Faq)) (hasFaqList : Bool) : List FaqItem :=
  match faqs with
  | none => []
  | some l => if hasFaqList then renderFaqs 0 l else []

/-- The loop of the click listener over every `.faq-item`. -/
def closeAll (items : List FaqItem) : List FaqItem :=
  items.map fun item => { item with active := false, ariaExpanded := "false" }

/-- The last two statements of the click listener, for the item at `i`. -/
def openAt : Nat → List FaqItem → List FaqItem
  | _, [] => []
  | 0, item :: rest => { item with active := true, ariaExpanded := "true" } :: rest
  | i + 1, item :: rest => item :: openAt i rest

/-- The click listener of the question of the item at position `i`. -/
def clickQuestion (i : Nat) (items : List FaqItem) : List FaqItem :=
  match items.get? i with
  | none => items
  | some faqEl =>
    let isActive := faqEl.active
    let closed := closeAll items
    if !isActive then openAt i closed else closed

/-- A run of clicks on the questions at the positions `is`. -/
def clicks (is : List Nat) (items : List FaqItem) : List FaqItem :=
  is.foldl (fun s i => clickQuestion i s) items

/-- How many items are active. -/
def activeCount (items : List FaqItem) : Nat :=
  items.countP (fun item => item.active)

/-- Every item has `aria-expanded` equal to `"true"` exactly when it is active. -/
def AriaConsistent (items : List FaqItem) : Prop :=
  ∀ item ∈ items, (item.ariaExpanded = "true" ↔ item.active = true)

/-! ## The clubs -/

/-- An entry of `content.clubs`. -/
structure Club where
  name : String
  campus : String
  url : Option String
  logo : Option String
deriving DecidableEq, Repr

/-- A `.club-item` element. -/
structure ClubEl where
  className : String
  innerHTML : String
  /-- The URL the click listener opens, through `addReferralToUrl`; `none`
  when the element has no listener. -/
  opens : Option String
  /-- The value of `style.cursor`. -/
  cursor : String
deriving DecidableEq, Repr

/-- The children of the two regions `populateClubs` fills, `none` for a region
the page does not have. -/
structure ClubRegions where
  clubsPreview : Option (List ClubEl)
  clubsFull : Option (List ClubEl)
deriving DecidableEq, Repr

/-- The function `createClubElement` of `populateClubs`. -/
def createClubElement (club : Club) : ClubEl :=
  let logo :=
    match club.logo with
    | some src =>
      if src ≠ "" then
        "<img src=\"" ++ src ++ "\" alt=\"" ++ club.name ++ " logo\" loading=\"lazy\" />"
      else ""
    | none => ""
  let clickable := truthy club.url
  { className := "club-item"
    innerHTML := "
        <div class=\"club-logo\" style=\"background: var(--surface-alt);\">
          " ++ logo ++ "
        </div>
        <div class=\"club-info\">
          <h4>" ++ club.name ++ "</h4>
          <p>" ++ club.campus ++ "</p>
        </div>
      "
    opens := if clickable then club.url else none
    cursor := if clickable then "pointer" else "" }

/-- Method `populateClubs`; `clubs` is `content.clubs`, `none` when missing. -/
def populateClubs (clubs : Option (List Club)) (regions : ClubRegions) : ClubRegions :=
  match clubs with
  | none => regions
  | some list =>
    let previewClubs := list.take 6
    { clubsPreview := regions.clubsPreview.map fun children =>
        children ++ previewClubs.map createClubElement
      clubsFull := regions.clubsFull.map fun children =>
        children ++ list.map createClubElement }

/-- A club with a name only. -/
def clubNamed (name : String) : Club :=
  { name := name, campus := "", url := none, logo := none }

/-- The two regions of a page, both empty. -/
def emptyRegions : ClubRegions :=
  { clubsPreview := some [], clubsFull := some [] }

end CTFApp

namespace FormHandler

open TeaserChallenge (getItem trim isWhiteSpace)
open ThemeManager (truthy)
open CTFApp (searchGet)

/-! ## Data model of the registration form -/

/-- An `input` or `select` control of the form. Every control sits in a parent
of its own, which holds the `.field-error` element of the control. -/
structure Field where
  name : String
  /-- The property `type` of the control. -/
  type : String
  /-- Whether the control has the attribute `required`. -/
  required : Bool
  value : String
  disabled : Bool
  /-- Whether the class list of the control has `error`. -/
  errorClass : Bool
  /-- The text of the `.field-error` element next to the control. -/
  fieldError : Option String
deriving DecidableEq, Repr

/-- A `.form-error` or `.form-success` element. -/
inductive Message where
  | error (text : String)
  | success
deriving DecidableEq, Repr

/-- The form element `#registration-form`, with its submit button. -/
structure Form where
  /-- The `input` and `select` controls of the form, in document order. -/
  fields : List Field
  submitDisabled : Bool
  submitText : String
  /-- The `.form-success` and `.form-error` elements under the parent of the form. -/
  messages : List Message
  /-- Whether `style.display` of the form is `none`. -/
  hidden : Bool
deriving DecidableEq, Repr

/-- The object `submitForm` passes to `JSON.stringify`; `none` is `undefined`,
which `JSON.stringify` leaves out. -/
structure Body where
  name : Option String
  email : Option String
  university : Option String
  study_level : Option String
  discord : Option String
  team_status : Option String
  referral : Option String
  utm_source : Option String
  utm_medium : Option String
  utm_campaign : Option String
  /-- The property `_subject`. -/
  subject : String
deriving DecidableEq, Repr

/-- The calls the handler makes, logged in order. -/
inductive Call where
  | validateAllFields
  | showFormError (message : String)
  | showFormSuccess
  | setFormLoading (loading : Bool)
  | getFormData
  | submitForm (body : Body)
  | trackRegistration
deriving DecidableEq, Repr

/-- The fields of a `FormHandler` whose form exists, with the storage, the
query string and the analytics it reads and writes. -/
structure Handler where
  form : Form
  /-- The entries of `localStorage`, one per key. -/
  storage : List (String × String)
  /-- The decoded name and value pairs of `window.location.search`. -/
  params : List (String × String)
  /-- Whether `typeof Analytics !== 'undefined'`. -/
  hasAnalytics : Bool
  /-- The events passed to `Analytics.track`, oldest first. -/
  tracked : List String
  /-- The bodies posted with `fetch`, oldest first. -/
  posted : List Body
  calls : List Call
deriving DecidableEq, Repr

/-! ## The email pattern -/

/-- The regular expressions the email pattern is built from. -/
inductive Regex where
  /-- A literal character. -/
  | char (c : Char)
  /-- One or more characters outside a class: `[^...]+`. -/
  | plusNot (excluded : Char → Bool)
  /-- One expression followed by another. -/
  | seq (r s : Regex)

/-- Every way to cut a string in two. -/
def splits (s : List Char) : List (List Char × List Char) :=
  (List.range (s.length + 1)).map fun k => (s.take k, s.drop k)

/-- Whether the whole of `s` matches the expression. -/
def Regex.matches : Regex → List Char → Bool
  | .char c, s => decide (s = [c])
  | .plusNot excluded, s => !s.isEmpty && s.all fun c => !excluded c
  | .seq r t, s => (splits s).any fun p => r.matches p.1 && t.matches p.2

/-- The class `[\s@]`. -/
def spaceOrAt (c : Char) : Bool :=
  isWhiteSpace c || c = '@'

/-- The pattern `[^\s@]+@[^\s@]+\.[^\s@]+`. -/
def emailRegex : Regex :=
  .seq (.plusNot spaceOrAt) (.seq (.char '@') (.seq (.plusNot spaceOrAt)
    (.seq (.char '.') (.plusNot spaceOrAt))))

/-- The expression `emailRegex.test(value)`: the pattern is anchored at both
ends. -/
def emailRegexTest (value : String) : Bool :=
  emailRegex.matches value.data

/-- The shape `local@domain`: the local part is not empty, neither part has
whitespace or a further `@`, and the domain has a `.` with at least one
character before it and after it. -/
def EmailShape (v : List Char) : Prop :=
  ∃ loc dom : List Char, v = loc ++ '@' :: dom ∧ loc ≠ [] ∧
    (∀ c ∈ loc, isWhiteSpace c = false ∧ c ≠ '@') ∧
    (∀ c ∈ dom, isWhiteSpace c = false ∧ c ≠ '@') ∧
    ∃ a b : List Char, dom = a ++ '.' :: b ∧ a ≠ [] ∧ b ≠ []

/-! ## Methods of `FormHandler` -/

/-- Method `clearFieldError`. -/
def clearFieldError (field : Field) : Field :=
  { field with errorClass := false, fieldError := none }

/-- Method `showFieldError`; `message` is `none` for `null`. -/
def showFieldError (field : Field) (message : Option String) : Field :=
  let cleared := clearFieldError field
  match message with
  | some text =>
    if text ≠ "" then { cleared with errorClass := true, fieldError := some text } else cleared
  | none => cleared

/-- Method `String.prototype.startsWith` for a one-character needle. -/
def startsWithChar (str : String) (c : Char) : Bool :=
  str.data.head? = some c

/-- Method `validateField`: the result and the field afterwards. -/
def validateField (field : Field) : Bool × Field :=
  let value := trim field.value
  let r1 : Bool × String :=
    if field.required && decide (value = "") then (false, "This field is required") else (true, "")
  let r2 : Bool × String :=
    if decide (field.type = "email") && decide (value ≠ "") then
      if !emailRegexTest value then (false, "Please enter a valid email address") else r1
    else r1
  let field1 : Field :=
    if decide (field.name = "discord") && decide (value ≠ "") && !startsWithChar value '@' then
      { field with value := "@" ++ value }
    else field
  (r2.1, showFieldError field1 (if r2.1 then none else some r2.2))

/-- Method `validateAllFields`: the result and the controls afterwards. Only
the required controls are validated. -/
def validateAllFields (fields : List Field) : Bool × List Field :=
  match fields with
  | [] => (true, [])
  | field :: rest =>
    if field.required then
      let r := validateField field
      let rs := validateAllFields rest
      (r.1 && rs.1, r.2 :: rs.2)
    else
      let rs := validateAllFields rest
      (rs.1, field :: rs.2)

/-- Method `clearFormMessages`. -/
def clearFormMessages (form : Form) : Form :=
  { form with messages := [] }

/-- Method `showFormError`. -/
def showFormError (message : String) (h : Handler) : Handler :=
  { h with
    form := { clearFormMessages h.form with messages := [.error message] }
    calls := h.calls ++ [.showFormError message] }

/-- Method `showFormSuccess`. -/
def showFormSuccess (h : Handler) : Handler :=
  { h with
    form := { clearFormMessages h.form with messages := [.success], hidden := true }
    tracked := if h.hasAnalytics then h.tracked ++ ["registration_success"] else h.tracked
    calls := h.calls ++ [.showFormSuccess] }

/-- Method `setFormLoading`. -/
def setFormLoading (loading : Bool) (h : Handler) : Handler :=
  { h with
    form := { h.form with
      submitDisabled := loading
      submitText := if loading then "Registering..." else "Register free"
      fields := h.form.fields.map fun field => { field with disabled := loading } }
    calls := h.calls ++ [.setFormLoading loading] }

/-- The entries of `new FormData(form)`: the controls that are not disabled
and have a name, in document order. -/
def formDataEntries (form : Form) : List (String × String) :=
  (form.fields.filter fun field => !field.disabled && decide (field.name ≠ "")).map
    fun field => (field.name, field.value)

/-- The property `key` of the object `getFormData` builds: the loop assigns
the entries in order, so the last entry of a name wins. -/
def dataGet (key : String) (data : List (String × String)) : Option String :=
  (data.reverse.find? fun kv => kv.1 = key).map fun kv => kv.2

/-- An assignment `data[key] = value`. -/
def dataSet (key value : String) (data : List (String × String)) : List (String × String) :=
  data ++ [(key, value)]

/-- An assignment guarded by the truthiness of the value. -/
def dataSetIf (key : String) (value : Option String) (data : List (String × String)) :
    List (String × String) :=
  match value with
  | some v => if v ≠ "" then dataSet key v data else data
  | none => data

/-- The object `submitForm` serialises from `data`. -/
def bodyOf (data : List (String × String)) : Body :=
  { name := dataGet "name" data
    email := dataGet "email" data
    university := dataGet "university" data
    study_level := dataGet "study-level" data
    discord := dataGet "discord" data
    team_status := dataGet "team-status" data
    referral := dataGet "referral" data
    utm_source := dataGet "utm_source" data
    utm_medium := dataGet "utm_medium" data
    utm_campaign := dataGet "utm_campaign" data
    subject := "ACUCyS Christmas CTF 2025 Registration" }

/-- Method `trackRegistration`. -/
def trackRegistration (h : Handler) : Handler :=
  { h with
    tracked := if h.hasAnalytics then h.tracked ++ ["registration_submit"] else h.tracked
    calls := h.calls ++ [.trackRegistration] }

/-- Method `handleFormSubmission`, run to its end; `response` is what `fetch`
answers: `some true` a response that is `ok`, `some false` one that is not,
`none` a rejected request. -/
def handleFormSubmission (response : Option Bool) (h : Handler) : Handler :=
  let v := validateAllFields h.form.fields
  let h1 : Handler :=
    { h with form := { h.form with fields := v.2 }, calls := h.calls ++ [.validateAllFields] }
  if !v.1 then showFormError "Please fix the errors above" h1
  else
    let h2 := setFormLoading true h1
    let data0 := formDataEntries h2.form
    let data1 := dataSetIf "referral" (getItem "ctf_referral" h2.storage) data0
    let data2 := dataSetIf "utm_source" (searchGet "utm_source" h2.params) data1
    let data3 := dataSetIf "utm_medium" (searchGet "utm_medium" h2.params) data2
    let data4 := dataSetIf "utm_campaign" (searchGet "utm_campaign" h2.params) data3
    let h3 : Handler :=
      { h2 with
        posted := h2.posted ++ [bodyOf data4]
        calls := h2.calls ++ [.getFormData, .submitForm (bodyOf data4)] }
    let h4 :=
      match response with
      | some true => trackRegistration (showFormSuccess h3)
      | _ => showFormError "Registration failed. Please try again." h3
    setFormLoading false h4

/-- A required text control. -/
def textField (name value : String) : Field :=
  { name := name, type := "text", required := true, value := value, disabled := false,
    errorClass := false, fieldError := none }

/-- A required email control. -/
def emailField (value : String) : Field :=
  { name := "email", type := "email", required := true, value := value, disabled := false,
    errorClass := false, fieldError := none }

/-- A handler over a form with the given controls and nothing else. -/
def sampleHandler (fields : List Field) : Handler :=
  { form := { fields := fields, submitDisabled := false, submitText := "Register free",
              messages := [], hidden := false }
    storage := [], params := [], hasAnalytics := false, tracked := [], posted := [], calls := [] }

/-- A value that is kept only when it is truthy. -/
def keepTruthy (v : Option String) : Option String :=
  if truthy v then v else none

/-- A required `select` control. -/
def selectField (name value : String) : Field :=
  { name := name, type := "select-one", required := true, value := value, disabled := false,
    errorClass := false, fieldError := none }

/-- The six controls of a filled-in registration form. -/
def registrationFields : List Field :=
  [textField "name" "Ada Lovelace", emailField "ada@example.org",
   selectField "university" "Monash University", selectField "study-level" "Undergraduate",
   textField "discord" "@ada", selectField "team-status" "solo"]

/-- A handler over the filled-in form, reached through a link that carries a
referral code and one UTM parameter. -/
def registrationHandler : Handler :=
  { sampleHandler registrationFields with
    storage := [("ctf_referral", "abc123")], params := [("utm_source", "newsletter")] }

/-- Whether a string starts with `@@`. -/
def startsWithAtAt (str : String) : Bool :=
  decide (str.data.take 2 = ['@', '@'])

end FormHandler

namespace CountdownTimer

/-! ## The decomposition of the remaining time -/

theorem decompose_pos (t : Int) (ht : 0 < t) :
    decompose t =
      { days := t / 86400000, hours := t % 86400000 / 3600000,
        minutes := t % 3600000 / 60000, seconds := t % 60000 / 1000 } := by
  have h0 : (0 : Int) ≤ t := le_of_lt ht
  simp only [decompose, floorDiv, jsMod]
  norm_num
  refine ⟨?_, ?_, ?_, ?_⟩
  · exact Int.fdiv_eq_ediv t (by norm_num)
  · rw [Int.tmod_eq_emod h0 (by norm_num)]; exact Int.fdiv_eq_ediv _ (by norm_num)
  · rw [Int.tmod_eq_emod h0 (by norm_num)]; exact Int.fdiv_eq_ediv _ (by norm_num)
  · rw [Int.tmod_eq_emod h0 (by norm_num)]; exact Int.fdiv_eq_ediv _ (by norm_num)

/-- C7: for every remaining time `t > 0` in milliseconds, `showCountdownToStart`
computes days, hours, minutes and seconds by floor division with modulo
chaining; hours is below 24, minutes and seconds below 60, and the four parts
together with the milliseconds left over add up to `t`. -/
theorem decompose_spec (t : Int) (ht : 0 < t) :
    (decompose t).days = t / 86400000 ∧
    (decompose t).hours = t % 86400000 / 3600000 ∧
    (decompose t).minutes = t % 3600000 / 60000 ∧
    (decompose t).seconds = t % 60000 / 1000 ∧
    0 ≤ (decompose t).days ∧
    0 ≤ (decompose t).hours ∧ (decompose t).hours < 24 ∧
    0 ≤ (decompose t).minutes ∧ (decompose t).minutes < 60 ∧
    0 ≤ (decompose t).seconds ∧ (decompose t).seconds < 60 ∧
    (decompose t).days * 86400000 + (decompose t).hours * 3600000 +
      (decompose t).minutes * 60000 + (decompose t).seconds * 1000 + t % 1000 = t := by
  rw [decompose_pos t ht]
  dsimp only
  refine ⟨rfl, rfl, rfl, rfl, ?_⟩
  omega

theorem decompose_spec_witness :
    (decompose 93784005).days = 1 ∧ (decompose 93784005).hours = 2 ∧
    (decompose 93784005).minutes = 3 ∧ (decompose 93784005).seconds = 4 ∧
    (decompose 93784005).days * 86400000 + (decompose 93784005).hours * 3600000 +
      (decompose 93784005).minutes * 60000 + (decompose 93784005).seconds * 1000 +
      93784005 % 1000 = 93784005 := by
  have h := decompose_spec 93784005 (by decide)
  refine ⟨?_, ?_, ?_, ?_, h.2.2.2.2.2.2.2.2.2.2.2⟩
  · rw [h.1]; decide
  · rw [h.2.1]; decide
  · rw [h.2.2.1]; decide
  · rw [h.2.2.2.1]; decide

/-! ## One tick -/

/-- C1: on a tick before the start of a window with `start < end`, whatever
the flags are, `updateCountdown` leaves `isEventLive` and `isEventFinished`
as they were, calls neither `showEventLive` nor `showEventFinished`, and calls
`updateCountdownDisplay` with the day, hour, minute and second decomposition
of `start - now`. -/
theorem updateCountdown_before_start (t : Timer) (start end_ now : Int)
    (hs : t.startTime = .valid start) (he : t.endTime = .valid end_)
    (hwin : start < end_) (hnow : now < start) :
    (updateCountdown now t).isEventLive = t.isEventLive ∧
    (updateCountdown now t).isEventFinished = t.isEventFinished ∧
    (updateCountdown now t).startTime = t.startTime ∧
    (updateCountdown now t).endTime = t.endTime ∧
    (updateCountdown now t).calls = t.calls ++
      [.showCountdownToStart (start - now),
       .updateCountdownDisplay ((start - now) / 86400000) ((start - now) % 86400000 / 3600000)
         ((start - now) % 3600000 / 60000) ((start - now) % 60000 / 1000)] ∧
    fired .showEventLive (updateCountdown now t) = fired .showEventLive t ∧
    fired .showEventFinished (updateCountdown now t) = fired .showEventFinished t := by
  have h1 : ¬ (start - now ≤ 0) := by omega
  have h2 : ¬ (end_ - now ≤ 0) := by omega
  have h3 : 0 < start - now := by omega
  have hd := decompose_pos (start - now) h3
  simp [updateCountdown, DateRef.minus, DateRef.toNumber, hs, he, leZero, h1, h2, h3,
    showCountdownToStart, updateCountdownDisplay, hd, fired, List.count_append]

theorem updateCountdown_before_start_witness :
    (updateCountdown 1000 { fresh ⟨none, none, some "", some "", some "", some "", none, none, false, [], [], 0⟩ with
        startTime := .valid 93785005, endTime := .valid 99999999 }).calls =
      [] ++ [.showCountdownToStart (93785005 - 1000),
       .updateCountdownDisplay ((93785005 - 1000) / 86400000) ((93785005 - 1000) % 86400000 / 3600000)
         ((93785005 - 1000) % 3600000 / 60000) ((93785005 - 1000) % 60000 / 1000)] :=
  (updateCountdown_before_start
    { fresh ⟨none, none, some "", some "", some "", some "", none, none, false, [], [], 0⟩ with
        startTime := .valid 93785005, endTime := .valid 99999999 }
    93785005 99999999 1000 rfl rfl (by decide) (by decide)).2.2.2.2.1

/-- C2: on a tick inside a window with `start < end` (`start <= now < end`),
a timer whose `isEventLive` is false sets it to true, calls `showEventLive`
once and does not update the countdown fields; a timer whose `isEventLive` is
already true is left exactly as it was. -/
theorem updateCountdown_in_window (t : Timer) (start end_ now : Int)
    (hs : t.startTime = .valid start) (he : t.endTime = .valid end_)
    (_hwin : start < end_) (h1 : start ≤ now) (h2 : now < end_) :
    (t.isEventLive = false →
      (updateCountdown now t).isEventLive = true ∧
      (updateCountdown now t).isEventFinished = t.isEventFinished ∧
      (updateCountdown now t).calls = t.calls ++
        ([.showEventLive, .updateCTAButtons "Join now" "Join Discord"] ++
          if t.page.hasShowToast then [.showToast "The CTF is now live! Join the competition."]
          else []) ∧
      fired .showEventLive (updateCountdown now t) = fired .showEventLive t + 1 ∧
      fired .showEventFinished (updateCountdown now t) = fired .showEventFinished t ∧
      (updateCountdown now t).page.daysEl = t.page.daysEl ∧
      (updateCountdown now t).page.hoursEl = t.page.hoursEl ∧
      (updateCountdown now t).page.minutesEl = t.page.minutesEl ∧
      (updateCountdown now t).page.secondsEl = t.page.secondsEl) ∧
    (t.isEventLive = true → updateCountdown now t = t) := by
  have h3 : start - now ≤ 0 := by omega
  have h4 : ¬ (end_ - now ≤ 0) := by omega
  have h5 : ¬ (0 < start - now) := by omega
  refine ⟨fun hl => ?_, fun hl => ?_⟩
  · cases hp : t.page.hasShowToast <;>
      simp [updateCountdown, DateRef.minus, DateRef.toNumber, hs, he, leZero, h3, hl,
        showEventLive, updateCTAButtons, fired, List.count_append, hp]
  · simp [updateCountdown, DateRef.minus, DateRef.toNumber, hs, he, leZero, h3, h4, h5, hl]

theorem parseIso_defaultStart : parseIso defaultStart = some 1765674000000 := by decide

theorem parseIso_defaultEnd : parseIso defaultEnd = some 1765760400000 := by decide

theorem updateCountdown_in_window_witness :
    (updateCountdown 500 { fresh samplePage with startTime := .valid 0, endTime := .valid 1000 }).isEventLive
        = true ∧
      updateCountdown 500 { fresh samplePage with
          startTime := .valid 0, endTime := .valid 1000, isEventLive := true }
        = { fresh samplePage with startTime := .valid 0, endTime := .valid 1000, isEventLive := true } :=
  ⟨((updateCountdown_in_window
      { fresh samplePage with startTime := .valid 0, endTime := .valid 1000 }
      0 1000 500 rfl rfl (by decide) (by decide) (by decide)).1 rfl).1,
   (updateCountdown_in_window
      { fresh samplePage with startTime := .valid 0, endTime := .valid 1000, isEventLive := true }
      0 1000 500 rfl rfl (by decide) (by decide) (by decide)).2 rfl⟩

/-- C3: a timer constructed after the end of the window (default window, clock
at 2026-01-01T00:00:00Z) is not Finished after the `updateCountdown` of its
constructor: the started branch returns first, so it announces the event as
live, leaves `isEventFinished` false and keeps the interval scheduled. -/
theorem construct_after_end_is_live :
    (construct parseIso none 1767225600000 samplePage).startTime = .valid 1765674000000 ∧
    (construct parseIso none 1767225600000 samplePage).endTime = .valid 1765760400000 ∧
    (construct parseIso none 1767225600000 samplePage).isEventLive = true ∧
    (construct parseIso none 1767225600000 samplePage).isEventFinished = false ∧
    (construct parseIso none 1767225600000 samplePage).calls =
      [.setInterval 1, .showEventLive, .updateCTAButtons "Join now" "Join Discord",
       .showToast "The CTF is now live! Join the competition."] ∧
    (construct parseIso none 1767225600000 samplePage).page.countdownTimer = some liveMarkup ∧
    (construct parseIso none 1767225600000 samplePage).page.countdownLabel = some "Event is live!" ∧
    (construct parseIso none 1767225600000 samplePage).page.intervals = [1] := by
  decide

/-! ## Sequences of ticks -/

theorem showEventLive_fields (t : Timer) :
    (showEventLive t).isEventLive = t.isEventLive ∧
    (showEventLive t).isEventFinished = t.isEventFinished ∧
    (showEventLive t).startTime = t.startTime ∧
    (showEventLive t).endTime = t.endTime ∧
    (showEventLive t).intervalId = t.intervalId ∧
    (showEventLive t).page.intervals = t.page.intervals ∧
    (showEventLive t).page.lastHandle = t.page.lastHandle ∧
    fired .showEventLive (showEventLive t) = fired .showEventLive t + 1 ∧
    fired .showEventFinished (showEventLive t) = fired .showEventFinished t ∧
    (∀ h, fired (.setInterval h) (showEventLive t) = fired (.setInterval h) t) ∧
    (∀ h, fired (.clearInterval h) (showEventLive t) = fired (.clearInterval h) t) := by
  cases hp : t.page.hasShowToast <;>
    simp [showEventLive, updateCTAButtons, fired, List.count_append, hp]

theorem showCountdownToStart_fields (d : Int) (t : Timer) :
    (showCountdownToStart d t).isEventLive = t.isEventLive ∧
    (showCountdownToStart d t).isEventFinished = t.isEventFinished ∧
    (showCountdownToStart d t).startTime = t.startTime ∧
    (showCountdownToStart d t).endTime = t.endTime ∧
    (showCountdownToStart d t).intervalId = t.intervalId ∧
    (showCountdownToStart d t).page.intervals = t.page.intervals ∧
    (showCountdownToStart d t).page.lastHandle = t.page.lastHandle ∧
    fired .showEventLive (showCountdownToStart d t) = fired .showEventLive t ∧
    fired .showEventFinished (showCountdownToStart d t) = fired .showEventFinished t ∧
    (∀ h, fired (.setInterval h) (showCountdownToStart d t) = fired (.setInterval h) t) ∧
    (∀ h, fired (.clearInterval h) (showCountdownToStart d t) = fired (.clearInterval h) t) := by
  simp [showCountdownToStart, updateCountdownDisplay, fired, List.count_append]

theorem showEventFinished_fields (t : Timer) :
    (showEventFinished t).isEventLive = t.isEventLive ∧
    (showEventFinished t).isEventFinished = t.isEventFinished ∧
    (showEventFinished t).startTime = t.startTime ∧
    (showEventFinished t).endTime = t.endTime ∧
    (showEventFinished t).intervalId = t.intervalId ∧
    (showEventFinished t).page.lastHandle = t.page.lastHandle ∧
    fired .showEventLive (showEventFinished t) = fired .showEventLive t ∧
    fired .showEventFinished (showEventFinished t) = fired .showEventFinished t + 1 ∧
    (∀ h, fired (.setInterval h) (showEventFinished t) = fired (.setInterval h) t) := by
  unfold showEventFinished
  cases hi : t.intervalId with
  | none => simp [updateCTAButtons, fired, List.count_append, hi]
  | some h =>
    by_cases h0 : h = 0 <;>
      simp [updateCTAButtons, fired, List.count_append, hi, h0]

/-- What `showEventFinished` does to the scheduled timers. -/
theorem showEventFinished_intervals (t : Timer) (h : Nat) (hi : t.intervalId = some h)
    (h0 : h ≠ 0) :
    (showEventFinished t).page.intervals = t.page.intervals.filter (· ≠ h) ∧
    (∀ k, fired (.clearInterval k) (showEventFinished t) =
      fired (.clearInterval k) t + if k = h then 1 else 0) := by
  unfold showEventFinished
  refine ⟨by simp [updateCTAButtons, hi, h0], fun k => ?_⟩
  by_cases hk : k = h
  · subst hk
    simp [updateCTAButtons, fired, List.count_append, hi, h0]
  · have hk' : ¬ h = k := fun e => hk e.symm
    simp [updateCTAButtons, fired, List.count_append, hi, h0, hk, hk']

theorem updateCountdown_eq_live (now : Int) (t : Timer)
    (h1 : leZero (t.startTime.minus now) = true) (h2 : t.isEventLive = false) :
    updateCountdown now t = showEventLive { t with isEventLive := true } := by
  simp [updateCountdown, h1, h2]

theorem updateCountdown_eq_finished (now : Int) (t : Timer)
    (h1 : t.isEventLive = true ∨ leZero (t.startTime.minus now) = false)
    (h3 : leZero (t.endTime.minus now) = true) (h4 : t.isEventFinished = false) :
    updateCountdown now t = showEventFinished { t with isEventFinished := true } := by
  rcases h1 with h | h <;> simp [updateCountdown, h, h3, h4]

theorem updateCountdown_eq_countdown (now : Int) (t : Timer)
    (h1 : t.isEventLive = true ∨ leZero (t.startTime.minus now) = false)
    (h2 : t.isEventFinished = true ∨ leZero (t.endTime.minus now) = false) :
    updateCountdown now t =
      match t.startTime.minus now with
      | some d => if 0 < d then showCountdownToStart d t else t
      | none => t := by
  rcases h1 with h | h <;> rcases h2 with h' | h' <;> simp [updateCountdown, h, h']

/-- What one `updateCountdown` does to the flags and to the number of calls of
the two one-shot effects. -/
theorem updateCountdown_flags (now : Int) (t : Timer) :
    (updateCountdown now t).isEventLive = (t.isEventLive || leZero (t.startTime.minus now)) ∧
    (updateCountdown now t).isEventFinished =
      (if leZero (t.startTime.minus now) && !t.isEventLive then t.isEventFinished
       else t.isEventFinished || leZero (t.endTime.minus now)) ∧
    fired .showEventLive (updateCountdown now t) = fired .showEventLive t +
      (if leZero (t.startTime.minus now) && !t.isEventLive then 1 else 0) ∧
    fired .showEventFinished (updateCountdown now t) = fired .showEventFinished t +
      (if leZero (t.startTime.minus now) && !t.isEventLive then 0
       else if leZero (t.endTime.minus now) && !t.isEventFinished then 1 else 0) ∧
    (updateCountdown now t).startTime = t.startTime ∧
    (updateCountdown now t).endTime = t.endTime ∧
    (updateCountdown now t).intervalId = t.intervalId ∧
    (updateCountdown now t).page.lastHandle = t.page.lastHandle ∧
    (∀ h, fired (.setInterval h) (updateCountdown now t) = fired (.setInterval h) t) := by
  by_cases c1 : leZero (t.startTime.minus now) = true ∧ t.isEventLive = false
  · rw [updateCountdown_eq_live now t c1.1 c1.2]
    have hl := showEventLive_fields { t with isEventLive := true }
    simp only [fired] at hl ⊢
    simp [hl, c1.1, c1.2]
  · have c1' : t.isEventLive = true ∨ leZero (t.startTime.minus now) = false := by
      cases h3 : leZero (t.startTime.minus now) <;> cases h4 : t.isEventLive <;> simp_all
    have e1 : (t.isEventLive || leZero (t.startTime.minus now)) = t.isEventLive := by
      rcases c1' with h | h <;> simp [h]
    have e0 : (leZero (t.startTime.minus now) && !t.isEventLive) = false := by
      rcases c1' with h | h <;> simp [h]
    by_cases c2 : leZero (t.endTime.minus now) = true ∧ t.isEventFinished = false
    · rw [updateCountdown_eq_finished now t c1' c2.1 c2.2]
      have hf := showEventFinished_fields { t with isEventFinished := true }
      simp only [fired] at hf ⊢
      simp [hf, e0, e1, c2.1, c2.2]
    · have c2' : t.isEventFinished = true ∨ leZero (t.endTime.minus now) = false := by
        cases h3 : leZero (t.endTime.minus now) <;> cases h4 : t.isEventFinished <;> simp_all
      have e2 : (t.isEventFinished || leZero (t.endTime.minus now)) = t.isEventFinished := by
        rcases c2' with h | h <;> simp [h]
      have e3 : (leZero (t.endTime.minus now) && !t.isEventFinished) = false := by
        rcases c2' with h | h <;> simp [h]
      rw [updateCountdown_eq_countdown now t c1' c2', e0, e1, e2, e3]
      cases h7 : t.startTime.minus now with
      | none => simp
      | some d =>
        have hc := showCountdownToStart_fields d t
        simp only [fired] at hc ⊢
        by_cases hd : 0 < d
        · simp [hd, hc]
        · simp [hd]

theorem newDate_eq (parse : String → Option Int) (str : String) :
    newDate parse str = .ok (parsedDate parse str) := by
  unfold newDate parsedDate
  split <;> rfl

/-- The placeholder branch of `loadEventTimes` is never taken: the method
stores whatever the two strings parse to. -/
theorem loadEventTimes_eq (parse : String → Option Int) (content : Option Content)
    (now : Int) (t : Timer) :
    loadEventTimes parse content now t =
      { t with
        startTime := parsedDate parse
          (match content with
           | some c => orDefault c.start defaultStart
           | none => defaultStart)
        endTime := parsedDate parse
          (match content with
           | some c => orDefault c.end_ defaultEnd
           | none => defaultEnd) } := by
  simp only [loadEventTimes, newDate_eq]

/-- On a tick at or after the end of a window with `start < end`: a timer
whose `isEventLive` is true is Finished afterwards; a timer whose `isEventLive`
is false becomes live and its `isEventFinished` is left as it was. -/
theorem updateCountdown_after_end (t : Timer) (start end_ now : Int)
    (hs : t.startTime = .valid start) (he : t.endTime = .valid end_)
    (hwin : start < end_) (hnow : end_ ≤ now) :
    (t.isEventLive = true → (updateCountdown now t).isEventFinished = true) ∧
    (t.isEventLive = false →
      (updateCountdown now t).isEventLive = true ∧
      (updateCountdown now t).isEventFinished = t.isEventFinished ∧
      fired .showEventFinished (updateCountdown now t) = fired .showEventFinished t) := by
  have h := updateCountdown_flags now t
  have h1 : start - now ≤ 0 := by omega
  have h2 : end_ - now ≤ 0 := by omega
  simp only [hs, he, DateRef.minus, DateRef.toNumber, leZero, h1, h2, decide_True] at h
  refine ⟨fun hl => ?_, fun hl => ?_⟩
  · rw [h.2.1, hl]; simp
  · rw [h.1, h.2.1, h.2.2.2.1, hl]; simp

/-- Method `loadEventTimes` writes `startTime` and `endTime` only. -/
theorem loadEventTimes_frame (parse : String → Option Int) (content : Option Content)
    (now : Int) (t : Timer) :
    (loadEventTimes parse content now t).isEventLive = t.isEventLive ∧
    (loadEventTimes parse content now t).isEventFinished = t.isEventFinished ∧
    (loadEventTimes parse content now t).intervalId = t.intervalId ∧
    (loadEventTimes parse content now t).page = t.page ∧
    (loadEventTimes parse content now t).calls = t.calls := by
  rw [loadEventTimes_eq]
  exact ⟨rfl, rfl, rfl, rfl, rfl⟩

/-- The flags and call counts after one action. -/
theorem step_flags (parse : String → Option Int) (a : Action) (t : Timer) :
    (t.isEventLive = true → (step parse a t).isEventLive = true) ∧
    (t.isEventFinished = true → (step parse a t).isEventFinished = true) ∧
    fired .showEventLive (step parse a t) = fired .showEventLive t +
      (if t.isEventLive = false ∧ (step parse a t).isEventLive = true then 1 else 0) ∧
    fired .showEventFinished (step parse a t) = fired .showEventFinished t +
      (if t.isEventFinished = false ∧ (step parse a t).isEventFinished = true then 1 else 0) := by
  cases a with
  | tick now =>
    have h := updateCountdown_flags now t
    simp only [step, h.1, h.2.1, h.2.2.1, h.2.2.2.1]
    cases t.isEventLive <;> cases t.isEventFinished <;>
      cases leZero (t.startTime.minus now) <;> cases leZero (t.endTime.minus now) <;> simp
  | load content now =>
    have h := loadEventTimes_frame parse content now t
    simp only [step, fired, h.1, h.2.1, h.2.2.2.2]
    cases t.isEventLive <;> cases t.isEventFinished <;> simp

theorem run_cons (parse : String → Option Int) (a : Action) (as : List Action) (t : Timer) :
    run parse (a :: as) t = run parse as (step parse a t) := rfl

theorem run_flags (parse : String → Option Int) (as : List Action) :
    ∀ t : Timer,
    (t.isEventLive = true → (run parse as t).isEventLive = true) ∧
    (t.isEventFinished = true → (run parse as t).isEventFinished = true) ∧
    fired .showEventLive (run parse as t) = fired .showEventLive t +
      (if t.isEventLive = false ∧ (run parse as t).isEventLive = true then 1 else 0) ∧
    fired .showEventFinished (run parse as t) = fired .showEventFinished t +
      (if t.isEventFinished = false ∧ (run parse as t).isEventFinished = true then 1 else 0) := by
  induction as with
  | nil => intro t; simp [run]
  | cons a as ih =>
    intro t
    have hs := step_flags parse a t
    have hr := ih (step parse a t)
    rw [run_cons]
    refine ⟨fun h => hr.1 (hs.1 h), fun h => hr.2.1 (hs.2.1 h), ?_, ?_⟩
    · rw [hr.2.2.1, hs.2.2.1]
      cases h1 : t.isEventLive <;> cases h2 : (step parse a t).isEventLive <;>
        cases h3 : (run parse as (step parse a t)).isEventLive <;> simp_all
    · rw [hr.2.2.2, hs.2.2.2]
      cases h1 : t.isEventFinished <;> cases h2 : (step parse a t).isEventFinished <;>
        cases h3 : (run parse as (step parse a t)).isEventFinished <;> simp_all

/-- C4: over every sequence of `updateCountdown` ticks and `loadEventTimes`
calls, from any state, `showEventLive` is called exactly as often as
`isEventLive` flips from false to true, which is at most once, and
`showEventFinished` exactly as often as `isEventFinished` flips from false to
true, at most once; on a single action the effect is called only when that
action flips the flag, and a flag that is true stays true. -/
theorem one_shot_effects (parse : String → Option Int) (as : List Action) (a : Action)
    (t : Timer) :
    fired .showEventLive (run parse as t) = fired .showEventLive t +
      (if t.isEventLive = false ∧ (run parse as t).isEventLive = true then 1 else 0) ∧
    fired .showEventFinished (run parse as t) = fired .showEventFinished t +
      (if t.isEventFinished = false ∧ (run parse as t).isEventFinished = true then 1 else 0) ∧
    fired .showEventLive (run parse as t) ≤ fired .showEventLive t + 1 ∧
    fired .showEventFinished (run parse as t) ≤ fired .showEventFinished t + 1 ∧
    fired .showEventLive (step parse a t) = fired .showEventLive t +
      (if t.isEventLive = false ∧ (step parse a t).isEventLive = true then 1 else 0) ∧
    fired .showEventFinished (step parse a t) = fired .showEventFinished t +
      (if t.isEventFinished = false ∧ (step parse a t).isEventFinished = true then 1 else 0) ∧
    (t.isEventLive = true → (run parse as t).isEventLive = true) ∧
    (t.isEventFinished = true → (run parse as t).isEventFinished = true) := by
  have hr := run_flags parse as t
  have hs := step_flags parse a t
  refine ⟨hr.2.2.1, hr.2.2.2, ?_, ?_, hs.2.2.1, hs.2.2.2, hr.1, hr.2.1⟩
  · rw [hr.2.2.1]; split <;> omega
  · rw [hr.2.2.2]; split <;> omega

theorem ticks_cons (now : Int) (nows : List Int) (t : Timer) :
    ticks (now :: nows) t = ticks nows (updateCountdown now t) := rfl

/-- With a window `start <= end`, ticks keep the window and keep
`isEventFinished` implying `isEventLive`. -/
theorem ticks_invariant (start end_ : Int) (hwin : start ≤ end_) (nows : List Int) :
    ∀ t : Timer, t.startTime = .valid start → t.endTime = .valid end_ →
      (t.isEventFinished = true → t.isEventLive = true) →
      (ticks nows t).startTime = .valid start ∧ (ticks nows t).endTime = .valid end_ ∧
      ((ticks nows t).isEventFinished = true → (ticks nows t).isEventLive = true) := by
  induction nows with
  | nil => intro t hs he hi; exact ⟨hs, he, hi⟩
  | cons now nows ih =>
    intro t hs he hi
    have h := updateCountdown_flags now t
    rw [ticks_cons]
    refine ih (updateCountdown now t) (by rw [h.2.2.2.2.1, hs]) (by rw [h.2.2.2.2.2.1, he]) ?_
    rw [h.1, h.2.1]
    simp only [hs, he, DateRef.minus, DateRef.toNumber, leZero]
    cases h1 : t.isEventLive <;> cases h2 : t.isEventFinished <;>
      by_cases h3 : start - now ≤ 0 <;> by_cases h4 : end_ - now ≤ 0 <;>
      simp_all
    all_goals omega

/-- C5: with a fixed window `start <= end`, in every state reached from a
freshly constructed timer (both flags false) by ticks at arbitrary clock
readings, `isEventFinished` implies `isEventLive`, and one more tick at any
clock reading resets neither flag: the phase only advances
Upcoming, Live, Finished. -/
theorem phase_only_advances (t0 : Timer) (start end_ : Int)
    (hs : t0.startTime = .valid start) (he : t0.endTime = .valid end_)
    (_hl : t0.isEventLive = false) (hf : t0.isEventFinished = false)
    (hwin : start ≤ end_) (nows : List Int) (now : Int) :
    ((ticks nows t0).isEventFinished = true → (ticks nows t0).isEventLive = true) ∧
    ((ticks nows t0).isEventLive = true →
      (updateCountdown now (ticks nows t0)).isEventLive = true) ∧
    ((ticks nows t0).isEventFinished = true →
      (updateCountdown now (ticks nows t0)).isEventFinished = true) ∧
    ((updateCountdown now (ticks nows t0)).isEventFinished = true →
      (updateCountdown now (ticks nows t0)).isEventLive = true) := by
  have hi := ticks_invariant start end_ hwin nows t0 hs he (by simp [hf])
  have hi2 := ticks_invariant start end_ hwin (nows ++ [now]) t0 hs he (by simp [hf])
  have e : ticks (nows ++ [now]) t0 = updateCountdown now (ticks nows t0) := by
    simp [ticks, List.foldl_append]
  rw [e] at hi2
  have h := updateCountdown_flags now (ticks nows t0)
  refine ⟨hi.2.2, ?_, ?_, hi2.2.2⟩
  · intro h1; rw [h.1, h1]; rfl
  · intro h1; rw [h.2.1, h1]; simp

theorem phase_only_advances_witness :
    (ticks [0, 5000, 2000, 9000, 100]
        { fresh samplePage with startTime := .valid 1000, endTime := .valid 3000 }).isEventFinished
        = true ∧
      (ticks [0, 5000, 2000, 9000, 100]
        { fresh samplePage with startTime := .valid 1000, endTime := .valid 3000 }).isEventLive
        = true ∧
      (updateCountdown 0 (ticks [0, 5000, 2000, 9000, 100]
        { fresh samplePage with startTime := .valid 1000, endTime := .valid 3000 })).isEventFinished
        = true :=
  ⟨by decide,
   (phase_only_advances { fresh samplePage with startTime := .valid 1000, endTime := .valid 3000 }
    1000 3000 rfl rfl rfl rfl (by decide) [0, 5000, 2000, 9000, 100] 0).1 (by decide),
   (phase_only_advances { fresh samplePage with startTime := .valid 1000, endTime := .valid 3000 }
    1000 3000 rfl rfl rfl rfl (by decide) [0, 5000, 2000, 9000, 100] 0).2.2.1 (by decide)⟩

/-! ## The repeating tick -/

theorem intervalInv_tick (h : Nat) (base : List Nat) (now : Int) (t : Timer)
    (inv : IntervalInv h base t) : IntervalInv h base (updateCountdown now t) := by
  obtain ⟨i1, i2, i3, i4, i5, i6⟩ := inv
  by_cases c1 : leZero (t.startTime.minus now) = true ∧ t.isEventLive = false
  · rw [updateCountdown_eq_live now t c1.1 c1.2]
    have hl := showEventLive_fields { t with isEventLive := true }
    simp only [fired] at hl i3 i4 i5
    refine ⟨by rw [hl.2.2.2.2.1]; exact i1, i2, fun k => by
      simp only [fired]; rw [hl.2.2.2.2.2.2.2.2.2.1 k]; exact i3 k, ?_, ?_, ?_⟩
    · simp only [fired]; rw [hl.2.2.2.2.2.2.2.2.1, hl.2.1]; exact i4
    · simp only [fired]; rw [hl.2.2.2.2.2.2.2.2.2.2 h, hl.2.1]; exact i5
    · rw [hl.2.2.2.2.2.1, hl.2.1]; exact i6
  · have c1' : t.isEventLive = true ∨ leZero (t.startTime.minus now) = false := by
      cases h3 : leZero (t.startTime.minus now) <;> cases h4 : t.isEventLive <;> simp_all
    by_cases c2 : leZero (t.endTime.minus now) = true ∧ t.isEventFinished = false
    · rw [updateCountdown_eq_finished now t c1' c2.1 c2.2]
      have hf := showEventFinished_fields { t with isEventFinished := true }
      have hv := showEventFinished_intervals { t with isEventFinished := true } h i1 i2
      simp only [fired] at hf hv i3 i4 i5
      simp only [c2.2, Bool.false_eq_true, if_false] at i4 i5 i6
      refine ⟨by rw [hf.2.2.2.2.1]; exact i1, i2, fun k => by
        simp only [fired]; rw [hf.2.2.2.2.2.2.2.2 k]; exact i3 k, ?_, ?_, ?_⟩
      · simp only [fired]; rw [hf.2.2.2.2.2.2.2.1, hf.2.1]; simp [i4]
      · simp only [fired]; rw [hv.2 h, hf.2.1]; simp [i5]
      · rw [hv.1, hf.2.1]; simp [i6, i2]
    · have c2' : t.isEventFinished = true ∨ leZero (t.endTime.minus now) = false := by
        cases h3 : leZero (t.endTime.minus now) <;> cases h4 : t.isEventFinished <;> simp_all
      rw [updateCountdown_eq_countdown now t c1' c2']
      have keep : IntervalInv h base t := ⟨i1, i2, i3, i4, i5, i6⟩
      cases h7 : t.startTime.minus now with
      | none => exact keep
      | some d =>
        by_cases hd : 0 < d
        · simp only [hd, if_true]
          have hc := showCountdownToStart_fields d t
          simp only [fired] at hc i3 i4 i5
          refine ⟨by rw [hc.2.2.2.2.1]; exact i1, i2, fun k => by
            simp only [fired]; rw [hc.2.2.2.2.2.2.2.2.2.1 k]; exact i3 k, ?_, ?_, ?_⟩
          · simp only [fired]; rw [hc.2.2.2.2.2.2.2.2.1, hc.2.1]; exact i4
          · simp only [fired]; rw [hc.2.2.2.2.2.2.2.2.2.2 h, hc.2.1]; exact i5
          · rw [hc.2.2.2.2.2.1, hc.2.1]; exact i6
        · simp only [hd, if_false]; exact keep

theorem intervalInv_step (parse : String → Option Int) (h : Nat) (base : List Nat)
    (a : Action) (t : Timer) (inv : IntervalInv h base t) :
    IntervalInv h base (step parse a t) := by
  cases a with
  | tick now => exact intervalInv_tick h base now t inv
  | load content now =>
    have hf := loadEventTimes_frame parse content now t
    unfold IntervalInv fired at inv ⊢
    simp only [step, hf.1, hf.2.1, hf.2.2.1, hf.2.2.2.1, hf.2.2.2.2]
    exact inv

theorem intervalInv_run (parse : String → Option Int) (h : Nat) (base : List Nat)
    (as : List Action) : ∀ t : Timer, IntervalInv h base t → IntervalInv h base (run parse as t) := by
  induction as with
  | nil => intro t inv; exact inv
  | cons a as ih =>
    intro t inv
    rw [run_cons]
    exact ih _ (intervalInv_step parse h base a t inv)

theorem intervalInv_construct (parse : String → Option Int) (content : Option Content)
    (now : Int) (page : Page) :
    IntervalInv (page.lastHandle + 1) page.intervals (construct parse content now page) := by
  unfold construct init
  apply intervalInv_tick
  have hf := loadEventTimes_frame parse content now (fresh page)
  unfold IntervalInv fired startCountdown
  simp only [hf.1, hf.2.1, hf.2.2.1, hf.2.2.2.1, hf.2.2.2.2]
  refine ⟨rfl, by omega, fun k => ?_, ?_, ?_, ?_⟩
  · by_cases hk : k = page.lastHandle + 1
    · subst hk; simp [fresh]
    · have hk' : ¬ page.lastHandle + 1 = k := fun e => hk e.symm
      simp [fresh, hk, hk']
  · simp [fresh]
  · simp [fresh]
  · simp [fresh]

/-- C6: for a timer built by the constructor on any page, in every state
reached by `updateCountdown` ticks and `loadEventTimes` calls: `setInterval`
has been called once only (by `startCountdown`); while `isEventFinished` is
false the handle is scheduled; once `isEventFinished` is true,
`showEventFinished` and `clearInterval` of that handle have each run once and
the handle is not scheduled, in that state and in every later one. -/
theorem finished_cancels_interval (parse : String → Option Int) (content : Option Content)
    (now : Int) (page : Page) (as more : List Action) :
    (run parse as (construct parse content now page)).intervalId = some (page.lastHandle + 1) ∧
    (∀ k, fired (.setInterval k) (run parse as (construct parse content now page)) =
      if k = page.lastHandle + 1 then 1 else 0) ∧
    ((run parse as (construct parse content now page)).isEventFinished = false →
      fired .showEventFinished (run parse as (construct parse content now page)) = 0 ∧
      (run parse as (construct parse content now page)).page.intervals =
        (page.lastHandle + 1) :: page.intervals) ∧
    ((run parse as (construct parse content now page)).isEventFinished = true →
      fired .showEventFinished (run parse as (construct parse content now page)) = 1 ∧
      fired (.clearInterval (page.lastHandle + 1))
        (run parse as (construct parse content now page)) = 1 ∧
      (page.lastHandle + 1) ∉ (run parse as (construct parse content now page)).page.intervals ∧
      (run parse as (construct parse content now page)).page.intervals =
        page.intervals.filter (· ≠ page.lastHandle + 1) ∧
      (page.lastHandle + 1) ∉
        (run parse more (run parse as (construct parse content now page))).page.intervals ∧
      (run parse more (run parse as (construct parse content now page))).page.intervals =
        (run parse as (construct parse content now page)).page.intervals) := by
  have inv := intervalInv_run parse _ _ as _ (intervalInv_construct parse content now page)
  have inv2 := intervalInv_run parse _ _ more _ inv
  have mono := (run_flags parse more (run parse as (construct parse content now page))).2.1
  obtain ⟨i1, _, i3, i4, i5, i6⟩ := inv
  obtain ⟨_, _, _, _, _, j6⟩ := inv2
  refine ⟨i1, i3, fun hf => ?_, fun hf => ?_⟩
  · simp only [hf, Bool.false_eq_true, if_false] at i4 i6
    exact ⟨i4, i6⟩
  · simp only [hf, if_true] at i4 i5 i6
    simp only [mono hf, if_true] at j6
    refine ⟨i4, i5, ?_, i6, ?_, ?_⟩
    · rw [i6]; simp
    · rw [j6]; simp
    · rw [j6, i6]

/-! ## The rendered fields -/

theorem digitChar_spec :
    ∀ d, d < 10 → (Nat.digitChar d).isDigit = true ∧ digitValue (Nat.digitChar d) = d := by
  decide

theorem toDigitsCore_all_digits (f : Nat) : ∀ (n : Nat) (ds : List Char),
    ds.all Char.isDigit = true → (Nat.toDigitsCore 10 f n ds).all Char.isDigit = true := by
  induction f with
  | zero => intro n ds h; simpa [Nat.toDigitsCore] using h
  | succ f ih =>
    intro n ds h
    have hd := (digitChar_spec (n % 10) (Nat.mod_lt _ (by decide))).1
    simp only [Nat.toDigitsCore]
    split
    · simp only [List.all_cons, hd, h, Bool.and_self]
    · exact ih _ _ (by simp only [List.all_cons, hd, h, Bool.and_self])

theorem toDigitsCore_value (f : Nat) : ∀ (n : Nat) (ds : List Char), n < f →
    (Nat.toDigitsCore 10 f n ds).foldl (fun acc c => 10 * acc + digitValue c) 0 =
      ds.foldl (fun acc c => 10 * acc + digitValue c) n := by
  induction f with
  | zero => intro n ds h; omega
  | succ f ih =>
    intro n ds h
    have hd := (digitChar_spec (n % 10) (Nat.mod_lt _ (by decide))).2
    simp only [Nat.toDigitsCore]
    split
    · rename_i h0
      have : n % 10 = n := by omega
      simp only [List.foldl_cons, hd, Nat.mul_zero, Nat.zero_add]
      rw [this]
    · rename_i h0
      rw [ih (n / 10) _ (by omega)]
      have : 10 * (n / 10) + n % 10 = n := by omega
      simp only [List.foldl_cons, hd, this]

theorem toDigitsCore_length_ge (f : Nat) : ∀ (k n : Nat) (ds : List Char), n < f → 10 ^ k ≤ n →
    k + 1 + ds.length ≤ (Nat.toDigitsCore 10 f n ds).length := by
  induction f with
  | zero => intro k n ds h; omega
  | succ f ih =>
    intro k n ds h hk
    simp only [Nat.toDigitsCore]
    cases k with
    | zero =>
      split
      · simp only [List.length_cons]; omega
      · rename_i h0
        have h1 : 10 ^ 0 ≤ n / 10 := by simp only [Nat.pow_zero]; omega
        have := ih 0 (n / 10) (Nat.digitChar (n % 10) :: ds) (by omega) h1
        simp only [List.length_cons] at this
        omega
    | succ k =>
      have hk' : 10 ^ k ≤ n / 10 := by
        rw [Nat.le_div_iff_mul_le (by decide)]
        rw [Nat.pow_succ] at hk
        exact hk
      have hpos : 0 < 10 ^ k := Nat.pow_pos (by decide)
      have h0 : ¬ n / 10 = 0 := by omega
      simp only [h0, if_false]
      have := ih k (n / 10) (Nat.digitChar (n % 10) :: ds) (by omega) hk'
      simp only [List.length_cons] at this
      omega

theorem foldl_replicate_zero (k : Nat) (l : List Char) :
    (List.replicate k '0' ++ l).foldl (fun acc c => 10 * acc + digitValue c) 0 =
      l.foldl (fun acc c => 10 * acc + digitValue c) 0 := by
  induction k with
  | zero => simp
  | succ k ih =>
    have hz : digitValue '0' = 0 := by decide
    simpa [List.replicate_succ, hz] using ih

/-- The field `padStart` builds from a component that is not negative. -/
theorem padded_field (d : Int) (hd : 0 ≤ d) :
    PaddedDecimal (padStart (numberToString d) 2 '0') d := by
  obtain ⟨n, rfl⟩ := Int.eq_ofNat_of_zero_le hd
  have hneg : ¬ ((n : Int) < 0) := by omega
  have hstr : numberToString (n : Int) = String.mk (Nat.toDigits 10 n) := by
    simp [numberToString]
  have hall := toDigitsCore_all_digits (n + 1) n [] rfl
  have hval := toDigitsCore_value (n + 1) n [] (by omega)
  have hge1 : 1 ≤ (Nat.toDigits 10 n).length := by
    by_cases h0 : n = 0
    · subst h0; decide
    · have := toDigitsCore_length_ge (n + 1) 0 n [] (by omega) (by simp only [Nat.pow_zero]; omega)
      simpa [Nat.toDigits] using this
  rw [hstr]
  unfold PaddedDecimal padStart decimalValue
  simp only [String.length, List.length_append, List.length_replicate]
  refine ⟨?_, ?_, by omega, ?_⟩
  · have hz : ('0' : Char).isDigit = true := by decide
    simp only [List.all_append, Bool.and_eq_true]
    exact ⟨by simp [List.all_replicate, hz], hall⟩
  · rw [foldl_replicate_zero]
    simp only [Nat.toDigits, List.foldl_nil] at hval ⊢
    rw [hval]
  · constructor
    · intro hlen
      by_contra hc
      have h100 : 10 ^ 2 ≤ n := by norm_num; omega
      have := toDigitsCore_length_ge (n + 1) 2 n [] (by omega) h100
      simp only [Nat.toDigits, List.length_nil] at this hlen
      omega
    · intro hlt
      have h100 : n < 10 ^ 2 := by norm_num; omega
      have := Nat.toDigitsCore_length 10 (by decide) (n + 1) n 2 h100 (by decide)
      simp only [Nat.toDigits] at hge1 ⊢
      omega

/-- C9, as the code has it: for every remaining time `t > 0`,
`showCountdownToStart` writes into each of the four elements that exist the
decimal digits of its component, padded on the left with zeros to at least two
characters: the field denotes the component, hours, minutes and seconds have
exactly two characters, and days has exactly two when it is below 100 and
more otherwise. -/
theorem countdown_fields (t : Int) (ht : 0 < t) (s : Timer) :
    (showCountdownToStart t s).page.daysEl =
      s.page.daysEl.map (fun _ => padStart (numberToString (t / 86400000)) 2 '0') ∧
    (showCountdownToStart t s).page.hoursEl =
      s.page.hoursEl.map (fun _ => padStart (numberToString (t % 86400000 / 3600000)) 2 '0') ∧
    (showCountdownToStart t s).page.minutesEl =
      s.page.minutesEl.map (fun _ => padStart (numberToString (t % 3600000 / 60000)) 2 '0') ∧
    (showCountdownToStart t s).page.secondsEl =
      s.page.secondsEl.map (fun _ => padStart (numberToString (t % 60000 / 1000)) 2 '0') ∧
    PaddedDecimal (padStart (numberToString (t / 86400000)) 2 '0') (t / 86400000) ∧
    PaddedDecimal (padStart (numberToString (t % 86400000 / 3600000)) 2 '0')
      (t % 86400000 / 3600000) ∧
    PaddedDecimal (padStart (numberToString (t % 3600000 / 60000)) 2 '0')
      (t % 3600000 / 60000) ∧
    PaddedDecimal (padStart (numberToString (t % 60000 / 1000)) 2 '0') (t % 60000 / 1000) ∧
    (padStart (numberToString (t % 86400000 / 3600000)) 2 '0').length = 2 ∧
    (padStart (numberToString (t % 3600000 / 60000)) 2 '0').length = 2 ∧
    (padStart (numberToString (t % 60000 / 1000)) 2 '0').length = 2 ∧
    ((padStart (numberToString (t / 86400000)) 2 '0').length = 2 ↔ t < 8640000000) := by
  have hd := decompose_pos t ht
  have p1 := padded_field (t / 86400000) (by omega)
  have p2 := padded_field (t % 86400000 / 3600000) (by omega)
  have p3 := padded_field (t % 3600000 / 60000) (by omega)
  have p4 := padded_field (t % 60000 / 1000) (by omega)
  refine ⟨?_, ?_, ?_, ?_, p1, p2, p3, p4, p2.2.2.2.2 (by omega), p3.2.2.2.2 (by omega),
    p4.2.2.2.2 (by omega), ?_⟩
  · simp [showCountdownToStart, updateCountdownDisplay, hd]
  · simp [showCountdownToStart, updateCountdownDisplay, hd]
  · simp [showCountdownToStart, updateCountdownDisplay, hd]
  · simp [showCountdownToStart, updateCountdownDisplay, hd]
  · rw [p1.2.2.2]; omega

theorem countdown_fields_witness :
    (showCountdownToStart 93784005 (fresh samplePage)).page.daysEl = some "01" ∧
    (showCountdownToStart 93784005 (fresh samplePage)).page.hoursEl = some "02" ∧
    (showCountdownToStart 93784005 (fresh samplePage)).page.minutesEl = some "03" ∧
    (showCountdownToStart 93784005 (fresh samplePage)).page.secondsEl = some "04" := by
  have h := countdown_fields 93784005 (by decide) (fresh samplePage)
  refine ⟨?_, ?_, ?_, ?_⟩
  · rw [h.1]; decide
  · rw [h.2.1]; decide
  · rw [h.2.2.1]; decide
  · rw [h.2.2.2.1]; decide

/-- C9 as stated fails: with 100 days left the days field is `100`, three
characters, not two. -/
theorem days_field_three_characters :
    0 < (8640000000 : Int) ∧
    (showCountdownToStart 8640000000 (fresh samplePage)).page.daysEl = some "100" ∧
    ("100" : String).length ≠ 2 := by
  decide

/-! ## The event window -/

/-- C8, as the code has it: when the configured start is missing (no content,
no `start` field, or the empty string) `loadEventTimes` stores what the
built-in `2025-12-14T12:00:00+11:00` parses to, and when the configured end is
missing what the built-in `2025-12-15T12:00:00+11:00` parses to, whatever the
clock reads; the two built-in instants are 24 hours apart. -/
theorem loadEventTimes_missing (parse : String → Option Int) (content : Option Content)
    (now : Int) (t : Timer) :
    ((∀ c, content = some c → c.start = none ∨ c.start = some "") →
      (loadEventTimes parse content now t).startTime = parsedDate parse defaultStart) ∧
    ((∀ c, content = some c → c.end_ = none ∨ c.end_ = some "") →
      (loadEventTimes parse content now t).endTime = parsedDate parse defaultEnd) ∧
    parsedDate parseIso defaultStart = .valid 1765674000000 ∧
    parsedDate parseIso defaultEnd = .valid (1765674000000 + 24 * 60 * 60 * 1000) := by
  rw [loadEventTimes_eq]
  refine ⟨fun h => ?_, fun h => ?_, by decide, by decide⟩
  · cases content with
    | none => rfl
    | some c => rcases h c rfl with h | h <;> simp [orDefault, h]
  · cases content with
    | none => rfl
    | some c => rcases h c rfl with h | h <;> simp [orDefault, h]

theorem loadEventTimes_missing_witness :
    (loadEventTimes parseIso (some { start := some "", end_ := none }) 1700000000000
        (fresh samplePage)).startTime = parsedDate parseIso defaultStart ∧
    (loadEventTimes parseIso (some { start := some "", end_ := none }) 1700000000000
        (fresh samplePage)).endTime = parsedDate parseIso defaultEnd :=
  ⟨(loadEventTimes_missing parseIso (some { start := some "", end_ := none }) 1700000000000
      (fresh samplePage)).1 (by intro c hc; cases hc; exact Or.inr rfl),
   (loadEventTimes_missing parseIso (some { start := some "", end_ := none }) 1700000000000
      (fresh samplePage)).2.1 (by intro c hc; cases hc; exact Or.inl rfl)⟩

/-- C8 as stated fails: with no start and no end configured and the clock at
2023-11-14T22:13:20Z, `startTime` is the built-in 2025-12-14T01:00:00Z, not 7
days after the clock. -/
theorem loadEventTimes_missing_not_placeholder :
    (loadEventTimes parseIso (some { start := none, end_ := none }) 1700000000000
        (fresh samplePage)).startTime = .valid 1765674000000 ∧
    (loadEventTimes parseIso (some { start := none, end_ := none }) 1700000000000
        (fresh samplePage)).startTime ≠ .valid (1700000000000 + 7 * 24 * 60 * 60 * 1000) := by
  decide

/-- A string the platform cannot parse is stored as the Invalid Date: the
placeholder branch is not taken for it either. -/
theorem loadEventTimes_unparseable (parse : String → Option Int) (c : Content) (str : String)
    (now : Int) (t : Timer) (hs : c.start = some str) (hne : str ≠ "")
    (hp : parse str = none) :
    (loadEventTimes parse (some c) now t).startTime = .invalid := by
  rw [loadEventTimes_eq]
  simp [orDefault, hs, hne, parsedDate, hp]

end CountdownTimer

namespace TeaserChallenge

/-! ## The answer check -/

theorem checkAnswer_iff (t : Teaser) (h : t.challenge = theChallenge) (u : String) :
    checkAnswer t u = true ↔ u ∈ accepted := by
  have e1 : toLowerCase "123456" = "123456" := by decide
  have e2 : ["password", "admin", "qwerty", "letmein", "welcome"].map toLowerCase =
      ["password", "admin", "qwerty", "letmein", "welcome"] := by decide
  simp only [checkAnswer, h, theChallenge, e1, e2, accepted]
  simp

/-- C10: for every string `s` typed into the answer input, on a page that has
the input and the result panel, `handleSubmission` takes the correct branch
(`showSuccess` then `trackSolve`) if and only if `s`, trimmed and lower-cased,
is one of `123456`, `password`, `admin`, `qwerty`, `letmein`, `welcome`, and
the `showError` branch otherwise; `123456`, `PASSWORD` and ` admin ` are
correct, `hunter2` is not. -/
theorem handleSubmission_correct_iff (nowIso s : String) (t : Teaser) (input : Input)
    (panel : ResultDiv) (hc : t.challenge = theChallenge)
    (hi : t.page.answerInput = some input) (hv : input.value = s)
    (hr : t.page.resultDiv = some panel) :
    (checkAnswer t (toLowerCase (trim s)) = true ↔ toLowerCase (trim s) ∈ accepted) ∧
    (toLowerCase (trim s) ∈ accepted →
      handleSubmission nowIso t = trackSolve (showSuccess nowIso t)) ∧
    (toLowerCase (trim s) ∉ accepted → handleSubmission nowIso t = showError t) ∧
    (Call.showSuccess ∈ (handleSubmission nowIso t).calls.drop t.calls.length ↔
      toLowerCase (trim s) ∈ accepted) ∧
    (Call.showError ∈ (handleSubmission nowIso t).calls.drop t.calls.length ↔
      toLowerCase (trim s) ∉ accepted) ∧
    toLowerCase (trim "123456") ∈ accepted ∧
    toLowerCase (trim "PASSWORD") ∈ accepted ∧
    toLowerCase (trim " admin ") ∈ accepted ∧
    toLowerCase (trim "hunter2") ∉ accepted := by
  have hiff := checkAnswer_iff t hc (toLowerCase (trim s))
  have hyes : toLowerCase (trim s) ∈ accepted →
      handleSubmission nowIso t = trackSolve (showSuccess nowIso t) := by
    intro hm
    simp only [handleSubmission, hi, hr, hv, hiff.2 hm, if_true]
  have hno : toLowerCase (trim s) ∉ accepted → handleSubmission nowIso t = showError t := by
    intro hm
    have : checkAnswer t (toLowerCase (trim s)) = false := by
      cases hb : checkAnswer t (toLowerCase (trim s))
      · rfl
      · exact absurd (hiff.1 hb) hm
    simp [handleSubmission, hi, hr, hv, this]
  refine ⟨hiff, hyes, hno, ?_, ?_, by decide, by decide, by decide, by decide⟩
  · by_cases hm : toLowerCase (trim s) ∈ accepted
    · rw [hyes hm]
      cases hp : t.page.hasShowToast <;>
        simp [hm, trackSolve, showSuccess, saveState, setupShareButton, hr, hp]
    · rw [hno hm]
      simp [hm, showError, hr]
  · by_cases hm : toLowerCase (trim s) ∈ accepted
    · rw [hyes hm]
      cases hp : t.page.hasShowToast <;>
        simp [hm, trackSolve, showSuccess, saveState, setupShareButton, hr, hp]
    · rw [hno hm]
      simp [hm, showError, hr]

theorem handleSubmission_correct_iff_witness :
    handleSubmission "2025-12-01T00:00:00.000Z" (fresh (samplePage " admin ")) =
        trackSolve (showSuccess "2025-12-01T00:00:00.000Z" (fresh (samplePage " admin "))) ∧
      handleSubmission "2025-12-01T00:00:00.000Z" (fresh (samplePage "hunter2")) =
        showError (fresh (samplePage "hunter2")) :=
  ⟨(handleSubmission_correct_iff "2025-12-01T00:00:00.000Z" " admin "
      (fresh (samplePage " admin ")) { value := " admin ", disabled := false }
      { className := "teaser-result", innerHTML := "", display := "none" }
      rfl rfl rfl rfl).2.1 (by decide),
   (handleSubmission_correct_iff "2025-12-01T00:00:00.000Z" "hunter2"
      (fresh (samplePage "hunter2")) { value := "hunter2", disabled := false }
      { className := "teaser-result", innerHTML := "", display := "none" }
      rfl rfl rfl rfl).2.2.1 (by decide)⟩

/-! ## The persisted solved state -/

theorem getItem_setItem_same (k v : String) (st : List (String × String)) :
    getItem k (setItem k v st) = some v := by
  simp [getItem, setItem]

theorem getItem_setItem_other (k k2 v : String) (st : List (String × String)) (h : k2 ≠ k) :
    getItem k (setItem k2 v st) = getItem k st := by
  simp only [getItem, setItem]
  rw [List.find?_cons_of_neg _ (by simpa using h)]
  congr 1
  induction st with
  | nil => rfl
  | cons x xs ih =>
    obtain ⟨a, b⟩ := x
    by_cases hx : a = k2
    · subst hx
      have hk : ¬ a = k := h
      simpa [List.filter_cons, hk, List.find?_cons] using ih
    · by_cases hk : a = k
      · subst hk
        simp [List.filter_cons, hx, List.find?_cons]
      · simpa [List.filter_cons, hx, hk, List.find?_cons] using ih

/-- What a correct submission leaves behind, on a page that has the result
panel. -/
theorem showSuccess_state (nowIso : String) (t : Teaser) (panel : ResultDiv)
    (hr : t.page.resultDiv = some panel) :
    (trackSolve (showSuccess nowIso t)).isSolved = true ∧
    (trackSolve (showSuccess nowIso t)).page.storage =
      setItem "ctf_teaser_solve_time" nowIso (setItem "ctf_teaser_solved" "true" t.page.storage) ∧
    (trackSolve (showSuccess nowIso t)).page.answerInput =
      t.page.answerInput.map (fun i => { i with disabled := true }) ∧
    (trackSolve (showSuccess nowIso t)).page.submitBtn =
      t.page.submitBtn.map (fun _ => { disabled := true }) ∧
    (trackSolve (showSuccess nowIso t)).page.resultDiv = some
      { className := "teaser-result success", innerHTML := successMarkup, display := "block" } ∧
    (trackSolve (showSuccess nowIso t)).page.timeouts = t.page.timeouts := by
  cases hp : t.page.hasShowToast <;> cases ha : t.page.hasAnalytics <;>
    simp [trackSolve, showSuccess, saveState, setupShareButton, hr, hp, ha]

/-- What the constructor does on a page whose storage says solved. -/
theorem construct_solved (page : Page) (panel : ResultDiv)
    (hs : getItem "ctf_teaser_solved" page.storage = some "true")
    (hr : page.resultDiv = some panel) :
    (construct page).isSolved = true ∧
    (construct page).page.resultDiv = some
      { className := "teaser-result success", innerHTML := previousSuccessMarkup,
        display := "block" } ∧
    (construct page).page.answerInput = page.answerInput.map (fun i => { i with disabled := true }) ∧
    (construct page).page.submitBtn = page.submitBtn.map (fun _ => { disabled := true }) ∧
    (construct page).page.storage = page.storage := by
  simp [construct, init, loadPreviousState, setupTeaserInteraction, fresh, hs,
    showPreviousSuccess, hr, setupShareButton]

theorem handleSubmission_eq_success (nowIso : String) (t : Teaser) (input : Input)
    (panel : ResultDiv) (hc : t.challenge = theChallenge)
    (hi : t.page.answerInput = some input) (hr : t.page.resultDiv = some panel)
    (hm : toLowerCase (trim input.value) ∈ accepted) :
    handleSubmission nowIso t = trackSolve (showSuccess nowIso t) := by
  simp only [handleSubmission, hi, hr, (checkAnswer_iff t hc _).2 hm, if_true]

theorem handleSubmission_eq_error (nowIso : String) (t : Teaser) (input : Input)
    (panel : ResultDiv) (hc : t.challenge = theChallenge)
    (hi : t.page.answerInput = some input) (hr : t.page.resultDiv = some panel)
    (hm : toLowerCase (trim input.value) ∉ accepted) :
    handleSubmission nowIso t = showError t := by
  have : checkAnswer t (toLowerCase (trim input.value)) = false := by
    cases hb : checkAnswer t (toLowerCase (trim input.value))
    · rfl
    · exact absurd ((checkAnswer_iff t hc _).1 hb) hm
  simp [handleSubmission, hi, hr, this]

/-- C11: after a correct submission on a page that has the answer input and
the result panel, storage holds `ctf_teaser_solved = "true"` and the time of
the solve under `ctf_teaser_solve_time`, `isSolved` is true, the answer input
is disabled and so is the submit button when the page has one; a new
`TeaserChallenge` constructed over that storage on a reloaded page that has
the result panel sets `isSolved`, renders the already-solved panel and
disables both controls. -/
theorem solved_state_persists (nowIso : String) (t : Teaser) (input : Input)
    (panel : ResultDiv) (hc : t.challenge = theChallenge)
    (hi : t.page.answerInput = some input) (hr : t.page.resultDiv = some panel)
    (hm : toLowerCase (trim input.value) ∈ accepted)
    (reloaded : Page) (panel2 : ResultDiv)
    (hst : reloaded.storage = (handleSubmission nowIso t).page.storage)
    (hr2 : reloaded.resultDiv = some panel2) :
    getItem "ctf_teaser_solved" (handleSubmission nowIso t).page.storage = some "true" ∧
    getItem "ctf_teaser_solve_time" (handleSubmission nowIso t).page.storage = some nowIso ∧
    (handleSubmission nowIso t).isSolved = true ∧
    (handleSubmission nowIso t).page.answerInput = some { input with disabled := true } ∧
    (handleSubmission nowIso t).page.submitBtn =
      t.page.submitBtn.map (fun _ => { disabled := true }) ∧
    (construct reloaded).isSolved = true ∧
    (construct reloaded).page.resultDiv = some
      { className := "teaser-result success", innerHTML := previousSuccessMarkup,
        display := "block" } ∧
    (construct reloaded).page.answerInput =
      reloaded.answerInput.map (fun i => { i with disabled := true }) ∧
    (construct reloaded).page.submitBtn =
      reloaded.submitBtn.map (fun _ => { disabled := true }) ∧
    (construct reloaded).page.storage = reloaded.storage := by
  have he := handleSubmission_eq_success nowIso t input panel hc hi hr hm
  have hs := showSuccess_state nowIso t panel hr
  rw [he] at hst ⊢
  have g1 : getItem "ctf_teaser_solved" (trackSolve (showSuccess nowIso t)).page.storage
      = some "true" := by
    rw [hs.2.1, getItem_setItem_other _ _ _ _ (by decide), getItem_setItem_same]
  have g2 : getItem "ctf_teaser_solve_time" (trackSolve (showSuccess nowIso t)).page.storage
      = some nowIso := by
    rw [hs.2.1, getItem_setItem_same]
  have hc2 := construct_solved reloaded panel2 (by rw [hst]; exact g1) hr2
  refine ⟨g1, g2, hs.1, ?_, hs.2.2.2.1, hc2.1, hc2.2.1, hc2.2.2.1, hc2.2.2.2.1, hc2.2.2.2.2⟩
  rw [hs.2.2.1, hi]; rfl

theorem solved_state_persists_witness :
    getItem "ctf_teaser_solved"
        (handleSubmission "2025-12-01T00:00:00.000Z" (fresh (samplePage "PASSWORD"))).page.storage
        = some "true" ∧
      (construct { samplePage "" with
          storage := (handleSubmission "2025-12-01T00:00:00.000Z"
            (fresh (samplePage "PASSWORD"))).page.storage }).page.submitBtn
        = some { disabled := true } ∧
      (construct { samplePage "" with
          storage := (handleSubmission "2025-12-01T00:00:00.000Z"
            (fresh (samplePage "PASSWORD"))).page.storage }).page.answerInput
        = some { value := "", disabled := true } :=
  ⟨(solved_state_persists "2025-12-01T00:00:00.000Z" (fresh (samplePage "PASSWORD"))
      { value := "PASSWORD", disabled := false }
      { className := "teaser-result", innerHTML := "", display := "none" }
      rfl rfl rfl (by decide)
      { samplePage "" with
          storage := (handleSubmission "2025-12-01T00:00:00.000Z"
            (fresh (samplePage "PASSWORD"))).page.storage }
      { className := "teaser-result", innerHTML := "", display := "none" } rfl rfl).1,
   (solved_state_persists "2025-12-01T00:00:00.000Z" (fresh (samplePage "PASSWORD"))
      { value := "PASSWORD", disabled := false }
      { className := "teaser-result", innerHTML := "", display := "none" }
      rfl rfl rfl (by decide)
      { samplePage "" with
          storage := (handleSubmission "2025-12-01T00:00:00.000Z"
            (fresh (samplePage "PASSWORD"))).page.storage }
      { className := "teaser-result", innerHTML := "", display := "none" } rfl rfl).2.2.2.2.2.2.2.2.1,
   (solved_state_persists "2025-12-01T00:00:00.000Z" (fresh (samplePage "PASSWORD"))
      { value := "PASSWORD", disabled := false }
      { className := "teaser-result", innerHTML := "", display := "none" }
      rfl rfl rfl (by decide)
      { samplePage "" with
          storage := (handleSubmission "2025-12-01T00:00:00.000Z"
            (fresh (samplePage "PASSWORD"))).page.storage }
      { className := "teaser-result", innerHTML := "", display := "none" } rfl rfl).2.2.2.2.2.2.2.1⟩

/-- C12: for every input that is not an accepted answer, on a page that has
the answer input and the result panel, `handleSubmission` leaves `isSolved`,
the whole of storage (so both `ctf_teaser_solved` and `ctf_teaser_solve_time`),
the answer input and the submit button as they were; it shows the error panel
and schedules one `clearResult` 3000 ms later. -/
theorem incorrect_submission_frame (nowIso : String) (t : Teaser) (input : Input)
    (panel : ResultDiv) (hc : t.challenge = theChallenge)
    (hi : t.page.answerInput = some input) (hr : t.page.resultDiv = some panel)
    (hm : toLowerCase (trim input.value) ∉ accepted) :
    (handleSubmission nowIso t).isSolved = t.isSolved ∧
    (handleSubmission nowIso t).page.storage = t.page.storage ∧
    getItem "ctf_teaser_solved" (handleSubmission nowIso t).page.storage =
      getItem "ctf_teaser_solved" t.page.storage ∧
    getItem "ctf_teaser_solve_time" (handleSubmission nowIso t).page.storage =
      getItem "ctf_teaser_solve_time" t.page.storage ∧
    (handleSubmission nowIso t).page.answerInput = t.page.answerInput ∧
    (handleSubmission nowIso t).page.submitBtn = t.page.submitBtn ∧
    (handleSubmission nowIso t).page.resultDiv = some
      { className := "teaser-result error", innerHTML := errorMarkup, display := "block" } ∧
    (handleSubmission nowIso t).page.timeouts = t.page.timeouts ++ [3000] ∧
    (handleSubmission nowIso t).calls = t.calls ++ [.showError, .setTimeout 3000] := by
  rw [handleSubmission_eq_error nowIso t input panel hc hi hr hm]
  simp [showError, hr]

theorem incorrect_submission_frame_witness :
    (handleSubmission "2025-12-01T00:00:00.000Z" (fresh (samplePage "hunter2"))).page.timeouts
        = [] ++ [3000] ∧
      (handleSubmission "2025-12-01T00:00:00.000Z" (fresh (samplePage "hunter2"))).page.storage
        = [] :=
  ⟨(incorrect_submission_frame "2025-12-01T00:00:00.000Z" (fresh (samplePage "hunter2"))
      { value := "hunter2", disabled := false }
      { className := "teaser-result", innerHTML := "", display := "none" }
      rfl rfl rfl (by decide)).2.2.2.2.2.2.2.1,
   (incorrect_submission_frame "2025-12-01T00:00:00.000Z" (fresh (samplePage "hunter2"))
      { value := "hunter2", disabled := false }
      { className := "teaser-result", innerHTML := "", display := "none" }
      rfl rfl rfl (by decide)).2.1⟩

/-! ## The pending clear of the result panel -/

/-- A correct submission made while a timeout of `showError` is pending shows
the success panel and leaves the timeout pending; when the timeout fires,
`clearResult` hides and empties the result panel. -/
theorem success_then_timeout (nowIso : String) (t : Teaser) (input : Input)
    (panel : ResultDiv) (hc : t.challenge = theChallenge)
    (hi : t.page.answerInput = some input) (hr : t.page.resultDiv = some panel)
    (hm : toLowerCase (trim input.value) ∈ accepted)
    (delay : Nat) (rest : List Nat) (hto : t.page.timeouts = delay :: rest) :
    (handleSubmission nowIso t).page.resultDiv = some
      { className := "teaser-result success", innerHTML := successMarkup, display := "block" } ∧
    (handleSubmission nowIso t).page.timeouts = delay :: rest ∧
    (timeoutFires (handleSubmission nowIso t)).page.resultDiv = some
      { className := "teaser-result", innerHTML := "", display := "none" } ∧
    (timeoutFires (handleSubmission nowIso t)).isSolved = true := by
  have he := handleSubmission_eq_success nowIso t input panel hc hi hr hm
  have hs := showSuccess_state nowIso t panel hr
  rw [he]
  refine ⟨hs.2.2.2.2.1, by rw [hs.2.2.2.2.2, hto], ?_, ?_⟩
  · simp [timeoutFires, hs.2.2.2.2.2, hto, clearResult, hs.2.2.2.2.1]
  · simp [timeoutFires, hs.2.2.2.2.2, hto, clearResult, hs.1]

set_option maxRecDepth 100000 in
/-- C24: a wrong answer is submitted, then `123456` is typed and submitted
before the 3 seconds are over: the success panel is displayed with the
timeout of the wrong answer still pending, and when that timeout fires the
result panel is hidden and emptied, the solved challenge showing nothing. -/
theorem timeout_clears_success_panel :
    (handleSubmission "2025-12-01T00:00:00.000Z" (construct (samplePage "hunter2"))).page.timeouts
      = [3000] ∧
    (handleSubmission "2025-12-01T00:00:01.000Z" (typeAnswer "123456"
      (handleSubmission "2025-12-01T00:00:00.000Z"
        (construct (samplePage "hunter2"))))).page.resultDiv = some
      { className := "teaser-result success", innerHTML := successMarkup, display := "block" } ∧
    (handleSubmission "2025-12-01T00:00:01.000Z" (typeAnswer "123456"
      (handleSubmission "2025-12-01T00:00:00.000Z"
        (construct (samplePage "hunter2"))))).page.timeouts = [3000] ∧
    (timeoutFires (handleSubmission "2025-12-01T00:00:01.000Z" (typeAnswer "123456"
      (handleSubmission "2025-12-01T00:00:00.000Z"
        (construct (samplePage "hunter2")))))).page.resultDiv = some
      { className := "teaser-result", innerHTML := "", display := "none" } ∧
    (timeoutFires (handleSubmission "2025-12-01T00:00:01.000Z" (typeAnswer "123456"
      (handleSubmission "2025-12-01T00:00:00.000Z"
        (construct (samplePage "hunter2")))))).isSolved = true ∧
    (timeoutFires (handleSubmission "2025-12-01T00:00:01.000Z" (typeAnswer "123456"
      (handleSubmission "2025-12-01T00:00:00.000Z"
        (construct (samplePage "hunter2")))))).page.answerInput
      = some { value := "123456", disabled := true } := by
  decide

end TeaserChallenge

namespace ThemeManager

open TeaserChallenge (getItem setItem getItem_setItem_same)

/-! ## The initial theme -/

theorem hasAsciiWhitespace_token (theme : String) :
    hasAsciiWhitespace (theme ++ "-theme") = hasAsciiWhitespace theme := by
  have hd : (theme ++ "-theme").data = theme.data ++ "-theme".data := rfl
  have ht : ("-theme".data.any fun c =>
      decide (c.toNat = 0x09) || decide (c.toNat = 0x0A) || decide (c.toNat = 0x0C) ||
        decide (c.toNat = 0x0D) || decide (c.toNat = 0x20)) = false := by decide
  simp only [hasAsciiWhitespace, hd, List.any_append, ht, Bool.or_false]

theorem token_ne_empty (theme : String) : theme ++ "-theme" ≠ "" := by
  intro h
  have := congrArg String.length h
  rw [String.length_append] at this
  have h6 : "-theme".length = 6 := by decide
  have h0 : "".length = 0 := rfl
  omega

/-- What `classList.add` does with the class of a theme. -/
theorem classAdd_token (theme : String) (l : List String) :
    classAdd (theme ++ "-theme") l =
      if hasAsciiWhitespace theme then .error "InvalidCharacterError"
      else .ok (if (theme ++ "-theme") ∈ l then l else l ++ [theme ++ "-theme"]) := by
  simp only [classAdd, token_ne_empty, if_false, hasAsciiWhitespace_token]

/-- What `setTheme` does for a theme whose class `classList.add` accepts. -/
theorem setTheme_fields (theme : String) (m : Manager) (h : hasAsciiWhitespace theme = false) :
    (setTheme theme m).currentTheme = some theme ∧
    (setTheme theme m).page.classList =
      (if (theme ++ "-theme") ∈
          classRemove "dark-theme" (classRemove "light-theme" m.page.classList)
        then classRemove "dark-theme" (classRemove "light-theme" m.page.classList)
        else classRemove "dark-theme" (classRemove "light-theme" m.page.classList)
          ++ [theme ++ "-theme"]) ∧
    (setTheme theme m).page.storage = setItem "theme" theme m.page.storage ∧
    getItem "theme" (setTheme theme m).page.storage = some theme ∧
    (setTheme theme m).thrown = none := by
  have e : setTheme theme m = dispatchThemeChangeEvent theme (updateThemeToggleButton
      { currentTheme := some theme
        page := { m.page with
          classList :=
            (if (theme ++ "-theme") ∈
                classRemove "dark-theme" (classRemove "light-theme" m.page.classList)
              then classRemove "dark-theme" (classRemove "light-theme" m.page.classList)
              else classRemove "dark-theme" (classRemove "light-theme" m.page.classList)
                ++ [theme ++ "-theme"])
          storage := setItem "theme" theme m.page.storage }
        thrown := none }) := by
    simp only [setTheme, classAdd_token, h, Bool.false_eq_true, if_false]
  rw [e]
  exact ⟨rfl, rfl, rfl, getItem_setItem_same "theme" theme m.page.storage, rfl⟩

/-- What `setTheme` does for a theme whose class has ASCII whitespace:
`classList.add` throws and the method ends there. -/
theorem setTheme_throws (theme : String) (m : Manager) (h : hasAsciiWhitespace theme = true) :
    setTheme theme m =
      { currentTheme := some theme
        page := { m.page with
          classList := classRemove "dark-theme" (classRemove "light-theme" m.page.classList) }
        thrown := some "InvalidCharacterError" } := by
  simp only [setTheme, classAdd_token, h, if_true]

theorem setupThemeToggle_frame (m : Manager) :
    (setupThemeToggle m).currentTheme = m.currentTheme ∧
    (setupThemeToggle m).page.classList = m.page.classList ∧
    (setupThemeToggle m).page.storage = m.page.storage ∧
    (setupThemeToggle m).thrown = m.thrown := by
  unfold setupThemeToggle createThemeToggleButton
  split
  · exact ⟨rfl, rfl, rfl, rfl⟩
  · split <;> exact ⟨rfl, rfl, rfl, rfl⟩

/-- The constructor after a `loadSavedTheme` that returned. -/
theorem init_returned (m : Manager) (h : (loadSavedTheme m).thrown = none) :
    init m = setupThemeToggle (loadSavedTheme m) := by
  simp only [init, h]

/-- The constructor after a `loadSavedTheme` that threw. -/
theorem init_thrown (m : Manager) (e : String) (h : (loadSavedTheme m).thrown = some e) :
    init m = loadSavedTheme m := by
  simp only [init, h]

theorem mem_setTheme_classList (theme : String) (m : Manager)
    (h : hasAsciiWhitespace theme = false) :
    (theme ++ "-theme") ∈ (setTheme theme m).page.classList := by
  rw [(setTheme_fields theme m h).2.1]
  split
  · assumption
  · simp

/-- C13: the constructor of `ThemeManager` sets the current theme to the
stored `theme` value when there is one (a stored empty string counts as none,
as for every falsy value), otherwise to `dark` when the operating system
prefers dark, otherwise to `light`. It gives the document the class of that
theme and returns, unless the stored value has ASCII whitespace: then
`classList.add` throws an `InvalidCharacterError` and the constructor ends
there, with the current theme set, no theme class on the document and storage,
the toggle button and the dispatched events untouched. With nothing stored and
the system preferring dark the theme is `dark`. -/
theorem initial_theme_precedence (page : Page) :
    (∀ saved, getItem "theme" page.storage = some saved → saved ≠ "" →
      (construct page).currentTheme = some saved ∧
      (hasAsciiWhitespace saved = false →
        (saved ++ "-theme") ∈ (construct page).page.classList ∧
        (construct page).thrown = none) ∧
      (hasAsciiWhitespace saved = true →
        (construct page).thrown = some "InvalidCharacterError" ∧
        (construct page).page.classList =
          classRemove "dark-theme" (classRemove "light-theme" page.classList) ∧
        (construct page).page.storage = page.storage ∧
        (construct page).page.toggle = page.toggle ∧
        (construct page).page.dispatched = page.dispatched)) ∧
    (truthy (getItem "theme" page.storage) = false → page.prefersDark = true →
      (construct page).currentTheme = some "dark" ∧
      "dark-theme" ∈ (construct page).page.classList ∧
      "light-theme" ∉ (construct page).page.classList ∧
      (construct page).thrown = none) ∧
    (truthy (getItem "theme" page.storage) = false → page.prefersDark = false →
      (construct page).currentTheme = some "light" ∧
      "light-theme" ∈ (construct page).page.classList ∧
      "dark-theme" ∉ (construct page).page.classList ∧
      (construct page).thrown = none) ∧
    (construct (samplePage true)).currentTheme = some "dark" := by
  have hsys : truthy (getItem "theme" page.storage) = false →
      loadSavedTheme (fresh page) =
        setTheme (if page.prefersDark then "dark" else "light") (fresh page) := by
    intro h
    unfold loadSavedTheme detectSystemPreference
    cases hg : getItem "theme" page.storage with
    | none => simp [fresh, hg]
    | some saved =>
      have : saved = "" := by simpa [truthy, hg] using h
      simp [fresh, hg, this]
  have hdark : hasAsciiWhitespace "dark" = false := by decide
  have hlight : hasAsciiWhitespace "light" = false := by decide
  refine ⟨fun saved hs hne => ?_, fun h hd => ?_, fun h hd => ?_, by decide⟩
  · have e : loadSavedTheme (fresh page) = setTheme saved (fresh page) := by
      simp [loadSavedTheme, fresh, hs, hne]
    cases hw : hasAsciiWhitespace saved
    · have hf := setTheme_fields saved (fresh page) hw
      have hi : construct page = setupThemeToggle (setTheme saved (fresh page)) := by
        rw [construct, init_returned _ (by rw [e]; exact hf.2.2.2.2), e]
      have hfr := setupThemeToggle_frame (setTheme saved (fresh page))
      rw [hi]
      refine ⟨by rw [hfr.1]; exact hf.1, fun _ => ⟨?_, by rw [hfr.2.2.2]; exact hf.2.2.2.2⟩,
        fun hc => absurd hc (by decide)⟩
      rw [hfr.2.1]
      exact mem_setTheme_classList saved (fresh page) hw
    · have ht := setTheme_throws saved (fresh page) hw
      have hi : construct page = setTheme saved (fresh page) := by
        rw [construct, init_thrown _ "InvalidCharacterError" (by rw [e, ht]), e]
      rw [hi, ht]
      exact ⟨rfl, fun hc => absurd hc (by decide), fun _ => ⟨rfl, rfl, rfl, rfl, rfl⟩⟩
  · have e := hsys h
    rw [hd] at e
    simp only [if_true] at e
    have hf := setTheme_fields "dark" (fresh page) hdark
    have hi : construct page = setupThemeToggle (setTheme "dark" (fresh page)) := by
      rw [construct, init_returned _ (by rw [e]; exact hf.2.2.2.2), e]
    have hfr := setupThemeToggle_frame (setTheme "dark" (fresh page))
    rw [hi, hfr.1, hfr.2.1, hfr.2.2.2]
    refine ⟨hf.1, mem_setTheme_classList "dark" (fresh page) hdark, ?_, hf.2.2.2.2⟩
    rw [hf.2.1]
    simp [classRemove, fresh]
  · have e := hsys h
    rw [hd] at e
    simp only [Bool.false_eq_true, if_false] at e
    have hf := setTheme_fields "light" (fresh page) hlight
    have hi : construct page = setupThemeToggle (setTheme "light" (fresh page)) := by
      rw [construct, init_returned _ (by rw [e]; exact hf.2.2.2.2), e]
    have hfr := setupThemeToggle_frame (setTheme "light" (fresh page))
    rw [hi, hfr.1, hfr.2.1, hfr.2.2.2]
    refine ⟨hf.1, mem_setTheme_classList "light" (fresh page) hlight, ?_, hf.2.2.2.2⟩
    rw [hf.2.1]
    simp [classRemove, fresh]

theorem initial_theme_precedence_witness :
    (construct { samplePage false with storage := [("theme", "dark")] }).currentTheme
        = some "dark" ∧
      (construct (samplePage true)).currentTheme = some "dark" ∧
      (construct (samplePage false)).currentTheme = some "light" ∧
      (construct { samplePage false with
          classList := ["light-theme"], storage := [("theme", "solarized dark")] }).thrown
        = some "InvalidCharacterError" ∧
      (construct { samplePage false with
          classList := ["light-theme"], storage := [("theme", "solarized dark")] }).page.classList
        = classRemove "dark-theme" (classRemove "light-theme" ["light-theme"]) :=
  ⟨((initial_theme_precedence { samplePage false with storage := [("theme", "dark")] }).1
      "dark" (by decide) (by decide)).1,
   ((initial_theme_precedence (samplePage true)).2.1 (by decide) (by decide)).1,
   ((initial_theme_precedence (samplePage false)).2.2.1 (by decide) (by decide)).1,
   (((initial_theme_precedence { samplePage false with
        classList := ["light-theme"], storage := [("theme", "solarized dark")] }).1
      "solarized dark" (by decide) (by decide)).2.2 (by decide)).1,
   (((initial_theme_precedence { samplePage false with
        classList := ["light-theme"], storage := [("theme", "solarized dark")] }).1
      "solarized dark" (by decide) (by decide)).2.2 (by decide)).2.1⟩

/-! ## Changes of the system colour scheme -/

/-- While a non-empty `theme` is stored, a change of the system colour scheme
changes nothing but the media query. -/
theorem systemPreferenceChanged_stored (withApp e : Bool) (m : Manager)
    (h : truthy (getItem "theme" m.page.storage) = true) :
    systemPreferenceChanged withApp e m = { m with page := { m.page with prefersDark := e } } := by
  cases withApp <;>
    simp [systemPreferenceChanged, onSystemPreferenceChange, ctfAppOnChange, h]

theorem systemChanges_stored (withApp : Bool) (es : List Bool) :
    ∀ m : Manager, truthy (getItem "theme" m.page.storage) = true →
      (systemChanges withApp es m).currentTheme = m.currentTheme ∧
      (systemChanges withApp es m).page.classList = m.page.classList ∧
      (systemChanges withApp es m).page.storage = m.page.storage ∧
      (systemChanges withApp es m).page.toggle = m.page.toggle ∧
      (systemChanges withApp es m).page.dispatched = m.page.dispatched := by
  induction es with
  | nil => intro m _; exact ⟨rfl, rfl, rfl, rfl, rfl⟩
  | cons e es ih =>
    intro m h
    have hs := systemPreferenceChanged_stored withApp e m h
    have := ih (systemPreferenceChanged withApp e m) (by rw [hs]; exact h)
    simp only [systemChanges, List.foldl_cons] at this ⊢
    rw [hs] at this ⊢
    exact this

theorem toggleTheme_stored (m : Manager) :
    truthy (getItem "theme" (toggleTheme m).page.storage) = true := by
  unfold toggleTheme
  split
  · rw [(setTheme_fields "dark" m (by decide)).2.2.2.1]; decide
  · rw [(setTheme_fields "light" m (by decide)).2.2.2.1]; decide

/-- C14: after `toggleTheme`, from any state, every run of changes of the
system colour scheme, in either direction and whether or not the listener of
`CTFApp` is registered too, leaves the current theme, the class list of the
document, storage, the toggle button and the dispatched events as the toggle
left them. -/
theorem toggle_then_system_changes (withApp : Bool) (es : List Bool) (m : Manager) :
    (systemChanges withApp es (toggleTheme m)).currentTheme = (toggleTheme m).currentTheme ∧
    (systemChanges withApp es (toggleTheme m)).page.classList =
      (toggleTheme m).page.classList ∧
    (systemChanges withApp es (toggleTheme m)).page.storage = (toggleTheme m).page.storage ∧
    getItem "theme" (systemChanges withApp es (toggleTheme m)).page.storage =
      (toggleTheme m).currentTheme ∧
    (systemChanges withApp es (toggleTheme m)).page.toggle = (toggleTheme m).page.toggle ∧
    (systemChanges withApp es (toggleTheme m)).page.dispatched =
      (toggleTheme m).page.dispatched := by
  have h := systemChanges_stored withApp es (toggleTheme m) (toggleTheme_stored m)
  refine ⟨h.1, h.2.1, h.2.2.1, ?_, h.2.2.2.1, h.2.2.2.2⟩
  rw [h.2.2.1]
  unfold toggleTheme
  split
  · rw [(setTheme_fields "dark" m (by decide)).2.2.2.1, (setTheme_fields "dark" m (by decide)).1]
  · rw [(setTheme_fields "light" m (by decide)).2.2.2.1,
      (setTheme_fields "light" m (by decide)).1]

/-- After the constructor a non-empty `theme` is stored, also when none was
stored before: `setTheme` stores the theme it sets, and when it throws the
stored value it was given is still there. -/
theorem construct_stored (page : Page) :
    truthy (getItem "theme" (construct page).page.storage) = true := by
  have hload : truthy (getItem "theme" (loadSavedTheme (fresh page)).page.storage) = true := by
    have hsys : truthy (getItem "theme"
        (setTheme (detectSystemPreference (fresh page)) (fresh page)).page.storage) = true := by
      unfold detectSystemPreference
      split
      · rw [(setTheme_fields "dark" _ (by decide)).2.2.2.1]; decide
      · rw [(setTheme_fields "light" _ (by decide)).2.2.2.1]; decide
    unfold loadSavedTheme
    cases hg : getItem "theme" (fresh page).page.storage with
    | none => exact hsys
    | some saved =>
      by_cases hne : saved = ""
      · simp only [hne, ne_eq, not_true_eq_false, if_false]
        exact hsys
      · simp only [ne_eq, hne, not_false_eq_true, if_true]
        cases hw : hasAsciiWhitespace saved
        · rw [(setTheme_fields saved _ hw).2.2.2.1]
          simpa [truthy] using hne
        · rw [setTheme_throws saved _ hw]
          show truthy (getItem "theme" (fresh page).page.storage) = true
          rw [hg]
          simpa [truthy] using hne
  cases ht : (loadSavedTheme (fresh page)).thrown with
  | none =>
    rw [construct, init_returned _ ht, (setupThemeToggle_frame _).2.2.1]
    exact hload
  | some e =>
    rw [construct, init_thrown _ e ht]
    exact hload

/-- After the constructor no change of the system colour scheme changes the
theme, whatever was stored before. -/
theorem construct_then_system_changes (withApp : Bool) (es : List Bool) (page : Page) :
    (systemChanges withApp es (construct page)).currentTheme = (construct page).currentTheme ∧
    (systemChanges withApp es (construct page)).page.classList =
      (construct page).page.classList :=
  ⟨(systemChanges_stored withApp es _ (construct_stored page)).1,
   (systemChanges_stored withApp es _ (construct_stored page)).2.1⟩

/-- C15: a `ThemeManager` constructed with nothing stored while the system
prefers light has stored `theme = light` itself, so when the system changes to
dark, without any manual toggle, the listener does nothing: the theme stays
`light` and the document keeps the class `light-theme`. -/
theorem system_change_ignored_after_init :
    getItem "theme" (samplePage false).storage = none ∧
    (construct (samplePage false)).currentTheme = some "light" ∧
    getItem "theme" (construct (samplePage false)).page.storage = some "light" ∧
    (systemPreferenceChanged false true (construct (samplePage false))).currentTheme
      = some "light" ∧
    (systemPreferenceChanged false true (construct (samplePage false))).page.classList
      = ["light-theme"] ∧
    (systemPreferenceChanged true true (construct (samplePage false))).page.classList
      = ["light-theme"] ∧
    (systemPreferenceChanged false true (construct (samplePage false))).page.prefersDark
      = true := by
  decide

end ThemeManager

namespace CTFApp

open TeaserChallenge (getItem setItem getItem_setItem_same getItem_setItem_other)
open ThemeManager (truthy)

/-! ## Referral links -/

/-- C16: `addReferralToUrl` returns the URL unchanged when no referral code is
set (`null` or empty), and otherwise the URL followed by `&ref=` and the code
when the URL contains `?`, by `?ref=` and the code when it does not; with the
code `abc123` a link gains `?ref=abc123`, or `&ref=abc123` when it already has
a query string. -/
theorem addReferralToUrl_spec (app : App) (u : String) :
    (truthy app.referralCode = false → addReferralToUrl app u = u) ∧
    (∀ c, app.referralCode = some c → c ≠ "" → '?' ∈ u.data →
      addReferralToUrl app u = u ++ "&ref=" ++ c) ∧
    (∀ c, app.referralCode = some c → c ≠ "" → '?' ∉ u.data →
      addReferralToUrl app u = u ++ "?ref=" ++ c) ∧
    addReferralToUrl { referralCode := some "abc123", storage := [] }
      "https://example.com/register" = "https://example.com/register?ref=abc123" ∧
    addReferralToUrl { referralCode := some "abc123", storage := [] }
      "https://example.com/register?src=home" = "https://example.com/register?src=home&ref=abc123" := by
  refine ⟨fun h => ?_, fun c hc hne hq => ?_, fun c hc hne hq => ?_, by decide, by decide⟩
  · unfold addReferralToUrl
    cases hr : app.referralCode with
    | none => rfl
    | some code =>
      have : code = "" := by simpa [truthy, hr] using h
      simp [this]
  · have hi : includesChar u '?' = true := by simpa [includesChar] using hq
    simp only [addReferralToUrl, hc, hne, hi, if_true, if_false]
    rw [String.append_assoc u "&" "ref="]
    rfl
  · have hi : includesChar u '?' = false := by simpa [includesChar] using hq
    simp only [addReferralToUrl, hc, hne, hi, if_false, Bool.false_eq_true]
    rw [String.append_assoc u "?" "ref="]
    rfl

theorem addReferralToUrl_spec_witness :
    addReferralToUrl { referralCode := none, storage := [] } "https://discord.gg/yourinvite"
        = "https://discord.gg/yourinvite" ∧
      addReferralToUrl { referralCode := some "abc123", storage := [] } "/guide?x=1"
        = "/guide?x=1" ++ "&ref=" ++ "abc123" ∧
      addReferralToUrl { referralCode := some "abc123", storage := [] } "/guide"
        = "/guide" ++ "?ref=" ++ "abc123" :=
  ⟨(addReferralToUrl_spec { referralCode := none, storage := [] }
      "https://discord.gg/yourinvite").1 (by decide),
   (addReferralToUrl_spec { referralCode := some "abc123", storage := [] } "/guide?x=1").2.1
      "abc123" rfl (by decide) (by decide),
   (addReferralToUrl_spec { referralCode := some "abc123", storage := [] } "/guide").2.2.1
      "abc123" rfl (by decide) (by decide)⟩

/-- C17: when the query string of the page carries a non-empty `ref`
parameter `r`, `initReferralTracking` sets `referralCode` to `r` and writes `r`
under `ctf_referral`, in place of whatever was stored there, and leaves every
other key alone; otherwise `referralCode` becomes the stored `ctf_referral`
value, or `null` when there is none, and storage is left unchanged. -/
theorem initReferralTracking_spec (params : List (String × String)) (app : App) :
    (∀ r, searchGet "ref" params = some r → r ≠ "" →
      (initReferralTracking params app).referralCode = some r ∧
      getItem "ctf_referral" (initReferralTracking params app).storage = some r ∧
      ((initReferralTracking params app).storage.filter (fun kv => kv.1 = "ctf_referral"))
        = [("ctf_referral", r)] ∧
      (∀ k, k ≠ "ctf_referral" →
        getItem k (initReferralTracking params app).storage = getItem k app.storage)) ∧
    (truthy (searchGet "ref" params) = false →
      (initReferralTracking params app).referralCode = getItem "ctf_referral" app.storage ∧
      (initReferralTracking params app).storage = app.storage) := by
  refine ⟨fun r hr hne => ?_, fun h => ?_⟩
  · have e : initReferralTracking params app =
        { referralCode := some r, storage := setItem "ctf_referral" r app.storage } := by
      simp [initReferralTracking, hr, hne]
    rw [e]
    refine ⟨rfl, getItem_setItem_same _ _ _, ?_, fun k hk => ?_⟩
    · simp [setItem, List.filter_cons, List.filter_filter]
    · exact getItem_setItem_other k "ctf_referral" r app.storage (fun e => hk e.symm)
  · unfold initReferralTracking
    cases hs : searchGet "ref" params with
    | none => exact ⟨rfl, rfl⟩
    | some r =>
      have : r = "" := by simpa [truthy, hs] using h
      simp [this]

theorem initReferralTracking_spec_witness :
    (initReferralTracking [("utm_source", "mail"), ("ref", "abc123")]
        { referralCode := none, storage := [("ctf_referral", "old")] }).referralCode
        = some "abc123" ∧
      (initReferralTracking [("utm_source", "mail")]
        { referralCode := none, storage := [("ctf_referral", "old")] }).referralCode
        = getItem "ctf_referral" [("ctf_referral", "old")] :=
  ⟨((initReferralTracking_spec [("utm_source", "mail"), ("ref", "abc123")]
      { referralCode := none, storage := [("ctf_referral", "old")] }).1
      "abc123" (by decide) (by decide)).1,
   ((initReferralTracking_spec [("utm_source", "mail")]
      { referralCode := none, storage := [("ctf_referral", "old")] }).2 (by decide)).1⟩

/-! ## The FAQ accordion -/

theorem closeAll_spec (items : List FaqItem) :
    activeCount (closeAll items) = 0 ∧ AriaConsistent (closeAll items) ∧
    (closeAll items).length = items.length ∧ ∀ x ∈ closeAll items, x.active = false := by
  refine ⟨?_, ?_, by simp [closeAll], ?_⟩
  · simp [activeCount, closeAll, List.countP_eq_zero]
  · intro item hitem
    simp only [closeAll, List.mem_map] at hitem
    obtain ⟨x, _, rfl⟩ := hitem
    simp
  · intro x hx
    simp only [closeAll, List.mem_map] at hx
    obtain ⟨y, _, rfl⟩ := hx
    rfl

theorem openAt_spec (items : List FaqItem) : ∀ i : Nat,
    activeCount (openAt i items) ≤ activeCount items + 1 ∧
    (AriaConsistent items → AriaConsistent (openAt i items)) := by
  induction items with
  | nil => intro i; cases i <;> simp [openAt, activeCount, AriaConsistent]
  | cons x xs ih =>
    intro i
    cases i with
    | zero =>
      refine ⟨?_, fun h => ?_⟩
      · cases hx : x.active <;> simp [openAt, activeCount, List.countP_cons, hx]
      · intro item hitem
        simp only [openAt, List.mem_cons] at hitem
        rcases hitem with rfl | hm
        · simp
        · exact h item (List.mem_cons_of_mem _ hm)
    | succ i =>
      have h := ih i
      refine ⟨?_, fun hc => ?_⟩
      · have h1 := h.1
        simp only [activeCount] at h1
        simp only [openAt, activeCount, List.countP_cons]
        omega
      · intro item hitem
        simp only [openAt, List.mem_cons] at hitem
        rcases hitem with rfl | hm
        · exact hc _ (List.mem_cons_self _ _)
        · exact h.2 (fun y hy => hc y (List.mem_cons_of_mem _ hy)) item hm

theorem clickQuestion_spec (i : Nat) (items : List FaqItem)
    (h1 : activeCount items ≤ 1) (h2 : AriaConsistent items) :
    activeCount (clickQuestion i items) ≤ 1 ∧ AriaConsistent (clickQuestion i items) := by
  unfold clickQuestion
  cases hg : items.get? i with
  | none => exact ⟨h1, h2⟩
  | some faqEl =>
    have hc := closeAll_spec items
    have ho := openAt_spec (closeAll items) i
    cases ha : faqEl.active
    · simp only [ha, Bool.not_false, if_true]
      exact ⟨by have := ho.1; omega, ho.2 hc.2.1⟩
    · simp only [ha, Bool.not_true, Bool.false_eq_true, if_false]
      exact ⟨by omega, hc.2.1⟩

theorem renderFaqs_spec (faqs : List Faq) : ∀ index : Nat,
    activeCount (renderFaqs index faqs) = 0 ∧ AriaConsistent (renderFaqs index faqs) ∧
    (renderFaqs index faqs).length = faqs.length := by
  induction faqs with
  | nil => intro index; simp [renderFaqs, activeCount, AriaConsistent]
  | cons f fs ih =>
    intro index
    have h := ih (index + 1)
    refine ⟨?_, ?_, by simp [renderFaqs, h.2.2]⟩
    · have h1 := h.1
      simp only [activeCount] at h1
      simp [renderFaqs, activeCount, List.countP_cons, h1]
    · intro item hitem
      simp only [renderFaqs, List.mem_cons] at hitem
      rcases hitem with rfl | hm
      · simp
      · exact h.2.1 item hm

theorem clicks_spec (is : List Nat) : ∀ items : List FaqItem,
    activeCount items ≤ 1 → AriaConsistent items →
    activeCount (clicks is items) ≤ 1 ∧ AriaConsistent (clicks is items) := by
  induction is with
  | nil => intro items h1 h2; exact ⟨h1, h2⟩
  | cons i is ih =>
    intro items h1 h2
    have h := clickQuestion_spec i items h1 h2
    exact ih (clickQuestion i items) h.1 h.2

theorem openAt_closeAll_active (items : List FaqItem) : ∀ i : Nat, i < items.length →
    (openAt i (closeAll items)).map (fun x => x.active) =
      (List.range items.length).map (fun j => decide (j = i)) := by
  induction items with
  | nil => intro i h; simp at h
  | cons x xs ih =>
    intro i h
    cases i with
    | zero =>
      simp only [closeAll, List.map_cons, openAt, List.length_cons, List.range_succ_eq_map,
        List.map_map]
      refine congrArg₂ _ (by simp) ?_
      apply List.ext_getElem <;> simp
    | succ i =>
      have := ih i (by simpa using h)
      simp only [closeAll] at this
      simp only [closeAll, List.map_cons, openAt, List.length_cons, List.range_succ_eq_map,
        List.map_map, this]
      refine congrArg₂ _ (by simp) ?_
      apply List.ext_getElem <;> simp

/-- C18: after every run of clicks on the questions rendered by `populateFAQ`
at most one item is active and every item has `aria-expanded` equal to
`"true"` exactly when it is active; one click on an inactive item makes it the
only active item, one click on the active item leaves no item active. -/
theorem faq_single_open (faqs : Option (List Faq)) (hasFaqList : Bool) (is : List Nat)
    (i : Nat) (items : List FaqItem) :
    activeCount (clicks is (populateFAQ faqs hasFaqList)) ≤ 1 ∧
    AriaConsistent (clicks is (populateFAQ faqs hasFaqList)) ∧
    (∀ item, items.get? i = some item → item.active = false →
      (clickQuestion i items).map (fun x => x.active) =
        (List.range items.length).map (fun j => decide (j = i))) ∧
    (∀ item, items.get? i = some item → item.active = true →
      ∀ x ∈ clickQuestion i items, x.active = false) ∧
    (AriaConsistent items → AriaConsistent (clickQuestion i items)) := by
  have h0 : activeCount (populateFAQ faqs hasFaqList) = 0 ∧
      AriaConsistent (populateFAQ faqs hasFaqList) := by
    unfold populateFAQ
    cases faqs with
    | none => simp [activeCount, AriaConsistent]
    | some l =>
      cases hasFaqList
      · simp [activeCount, AriaConsistent]
      · exact ⟨(renderFaqs_spec l 0).1, (renderFaqs_spec l 0).2.1⟩
  have hc := clicks_spec is (populateFAQ faqs hasFaqList) (by omega) h0.2
  refine ⟨hc.1, hc.2, fun item hg ha => ?_, fun item hg ha => ?_, fun hcons => ?_⟩
  · have hlt : i < items.length := by
      rw [List.get?_eq_some] at hg
      exact hg.1
    simp only [clickQuestion, hg, ha, Bool.not_false, if_true]
    exact openAt_closeAll_active items i hlt
  · simp only [clickQuestion, hg, ha, Bool.not_true, Bool.false_eq_true, if_false]
    exact (closeAll_spec items).2.2.2
  · unfold clickQuestion
    cases hg : items.get? i with
    | none => exact hcons
    | some faqEl =>
      cases ha : faqEl.active
      · simp only [ha, Bool.not_false, if_true]
        exact (openAt_spec (closeAll items) i).2 (closeAll_spec items).2.1
      · simp only [ha, Bool.not_true, Bool.false_eq_true, if_false]
        exact (closeAll_spec items).2.1

theorem faq_single_open_witness :
    (clickQuestion 1 (clickQuestion 0 (populateFAQ
        (some [{ q := "Is it free?", a := "Yes." }, { q := "What do I need?", a := "A laptop." }])
        true))).map (fun x => x.active)
      = (List.range (clickQuestion 0 (populateFAQ
        (some [{ q := "Is it free?", a := "Yes." }, { q := "What do I need?", a := "A laptop." }])
        true)).length).map (fun j => decide (j = 1)) :=
  (faq_single_open none false [] 1 (clickQuestion 0 (populateFAQ
        (some [{ q := "Is it free?", a := "Yes." }, { q := "What do I need?", a := "A laptop." }])
        true))).2.2.1
    { index := 1, q := "What do I need?", a := "A laptop.", active := false,
      ariaExpanded := "false" } (by decide) rfl

/-! ## The clubs regions -/

/-- C23: for every clubs list of length `n`, on a page whose two regions are
there and empty, `populateClubs` renders into the preview region the first
`min 6 n` clubs in list order and into the full region all `n` clubs in list
order: the preview has at most 6 items and is the start of the full list. On
any page it appends these items to the children a region already has. -/
theorem populateClubs_spec (list : List Club) (regions : ClubRegions)
    (hp : regions.clubsPreview = some []) (hf : regions.clubsFull = some []) :
    (populateClubs (some list) regions).clubsPreview =
      some ((list.take (min 6 list.length)).map createClubElement) ∧
    (populateClubs (some list) regions).clubsFull = some (list.map createClubElement) ∧
    (∀ preview full, (populateClubs (some list) regions).clubsPreview = some preview →
      (populateClubs (some list) regions).clubsFull = some full →
      preview.length = min 6 list.length ∧ preview.length ≤ 6 ∧
      full.length = list.length ∧ preview = full.take 6) ∧
    (∀ other : ClubRegions,
      (populateClubs (some list) other).clubsPreview =
        other.clubsPreview.map (fun children => children ++ (list.take 6).map createClubElement) ∧
      (populateClubs (some list) other).clubsFull =
        other.clubsFull.map (fun children => children ++ list.map createClubElement)) := by
  have htake : list.take (min 6 list.length) = list.take 6 := by
    rw [List.take_eq_take]
    omega
  have h1 : (populateClubs (some list) regions).clubsPreview =
      some ((list.take 6).map createClubElement) := by
    simp [populateClubs, hp]
  have h2 : (populateClubs (some list) regions).clubsFull = some (list.map createClubElement) := by
    simp [populateClubs, hf]
  refine ⟨by rw [htake]; exact h1, h2, ?_, fun other => ⟨rfl, rfl⟩⟩
  intro preview full hpre hfull
  rw [h1] at hpre
  rw [h2] at hfull
  cases hpre
  cases hfull
  refine ⟨by simp, by simp, by simp, ?_⟩
  rw [List.map_take]

theorem populateClubs_spec_witness :
    (populateClubs (some [clubNamed "DUCA", clubNamed "DSEC", clubNamed "AdelaideB9",
        clubNamed "LTUCS", clubNamed "MonSec", clubNamed "MISC", clubNamed "RISC"])
        emptyRegions).clubsPreview =
      some (([clubNamed "DUCA", clubNamed "DSEC", clubNamed "AdelaideB9",
        clubNamed "LTUCS", clubNamed "MonSec", clubNamed "MISC", clubNamed "RISC"].take
          (min 6 [clubNamed "DUCA", clubNamed "DSEC", clubNamed "AdelaideB9",
            clubNamed "LTUCS", clubNamed "MonSec", clubNamed "MISC",
            clubNamed "RISC"].length)).map createClubElement) :=
  (populateClubs_spec [clubNamed "DUCA", clubNamed "DSEC", clubNamed "AdelaideB9",
      clubNamed "LTUCS", clubNamed "MonSec", clubNamed "MISC", clubNamed "RISC"]
    emptyRegions rfl rfl).1

end CTFApp

namespace FormHandler

open TeaserChallenge (getItem trim isWhiteSpace)
open ThemeManager (truthy)
open CTFApp (searchGet)

/-! ## The email pattern and the shape it accepts -/

theorem any_splits (s : List Char) (P : List Char × List Char → Bool) :
    (splits s).any P = true ↔ ∃ a b, s = a ++ b ∧ P (a, b) = true := by
  simp only [splits, List.any_eq_true, List.mem_map, List.mem_range]
  constructor
  · rintro ⟨p, ⟨k, _, rfl⟩, hP⟩
    exact ⟨s.take k, s.drop k, (List.take_append_drop k s).symm, hP⟩
  · rintro ⟨a, b, rfl, hP⟩
    refine ⟨(a, b), ⟨a.length, by simp; omega, ?_⟩, hP⟩
    simp

theorem plusNot_matches (s : List Char) :
    (Regex.plusNot spaceOrAt).matches s = true ↔
      s ≠ [] ∧ ∀ c ∈ s, isWhiteSpace c = false ∧ c ≠ '@' := by
  cases s with
  | nil => simp [Regex.matches]
  | cons x xs =>
    simp only [Regex.matches, List.isEmpty_cons, Bool.not_false, Bool.true_and, List.all_eq_true,
      spaceOrAt, Bool.not_eq_true', Bool.or_eq_false_iff, decide_eq_false_iff_not, ne_eq,
      not_false_eq_true, true_and, reduceCtorEq]

/-- The pattern accepts exactly the strings of the shape `local@domain`. -/
theorem emailRegexTest_iff (value : String) :
    emailRegexTest value = true ↔ EmailShape value.data := by
  have hdot : isWhiteSpace '.' = false ∧ '.' ≠ '@' := by decide
  simp only [emailRegexTest, emailRegex, Regex.matches, any_splits, Bool.and_eq_true,
    decide_eq_true_eq]
  have hp : ∀ s : List Char,
      ((!s.isEmpty) = true ∧ (s.all fun c => !spaceOrAt c) = true) ↔
        s ≠ [] ∧ ∀ c ∈ s, isWhiteSpace c = false ∧ c ≠ '@' := by
    intro s
    rw [← Bool.and_eq_true]
    exact plusNot_matches s
  simp only [hp]
  constructor
  · rintro ⟨loc, b, hv, ⟨hl1, hl2⟩, c, d, rfl, rfl, e, f, rfl, ⟨he1, he2⟩, g, t, rfl, rfl, ht1, ht2⟩
    refine ⟨loc, e ++ '.' :: t, by simpa using hv, hl1, hl2, ?_, e, t, rfl, he1, ht1⟩
    intro x hx
    simp only [List.mem_append, List.mem_cons] at hx
    rcases hx with hx | rfl | hx
    · exact he2 x hx
    · exact hdot
    · exact ht2 x hx
  · rintro ⟨loc, dom, hv, hl1, hl2, hd, a, b, rfl, ha, hb⟩
    refine ⟨loc, '@' :: (a ++ '.' :: b), hv, ⟨hl1, hl2⟩, ['@'], a ++ '.' :: b, rfl, rfl,
      a, '.' :: b, rfl, ⟨ha, fun c hc => hd c (by simp [hc])⟩, ['.'], b, rfl, rfl, hb,
      fun c hc => hd c (by simp [hc])⟩

/-! ## Field validation -/

/-- The result of `validateField` and the error it shows, case by case. -/
theorem validateField_cases (f : Field) :
    ((f.type = "email" ∧ trim f.value ≠ "" ∧ emailRegexTest (trim f.value) = false) →
      (validateField f).1 = false ∧
      (validateField f).2.fieldError = some "Please enter a valid email address" ∧
      (validateField f).2.errorClass = true) ∧
    (¬ (f.type = "email" ∧ trim f.value ≠ "" ∧ emailRegexTest (trim f.value) = false) →
      (f.required = true ∧ trim f.value = "") →
      (validateField f).1 = false ∧
      (validateField f).2.fieldError = some "This field is required" ∧
      (validateField f).2.errorClass = true) ∧
    (¬ (f.type = "email" ∧ trim f.value ≠ "" ∧ emailRegexTest (trim f.value) = false) →
      ¬ (f.required = true ∧ trim f.value = "") →
      (validateField f).1 = true ∧
      (validateField f).2.fieldError = none ∧
      (validateField f).2.errorClass = false) := by
  by_cases h1 : f.type = "email" <;> by_cases h2 : trim f.value = "" <;>
    cases h3 : emailRegexTest (trim f.value) <;> cases h4 : f.required <;>
    by_cases h5 : f.name = "discord" <;> cases h6 : startsWithChar (trim f.value) '@' <;>
    simp [validateField, showFieldError, clearFieldError, h1, h2, h3, h4, h5, h6]

/-- C19: `validateField` returns false exactly when the field is required and
its trimmed value is empty, or the field has type email and its trimmed value
is not empty and not of the shape `local@domain` (local part not empty, no
whitespace and no further `@` in either part, a `.` in the domain with at
least one character before it and after it); the field shows an error
message, and has the class `error`, exactly when the result is false. -/
theorem validateField_spec (f : Field) :
    ((validateField f).1 = false ↔
      (f.required = true ∧ trim f.value = "") ∨
      (f.type = "email" ∧ trim f.value ≠ "" ∧ ¬ EmailShape (trim f.value).data)) ∧
    ((validateField f).2.fieldError ≠ none ↔ (validateField f).1 = false) ∧
    ((validateField f).2.errorClass = true ↔ (validateField f).1 = false) := by
  have hc := validateField_cases f
  have hshape : emailRegexTest (trim f.value) = false ↔ ¬ EmailShape (trim f.value).data := by
    rw [← emailRegexTest_iff]; simp
  by_cases hA : f.type = "email" ∧ trim f.value ≠ "" ∧ emailRegexTest (trim f.value) = false
  · have h := hc.1 hA
    refine ⟨⟨fun _ => Or.inr ⟨hA.1, hA.2.1, hshape.1 hA.2.2⟩, fun _ => h.1⟩, ?_, ?_⟩
    · simp [h.1, h.2.1]
    · simp [h.1, h.2.2]
  · by_cases hB : f.required = true ∧ trim f.value = ""
    · have h := hc.2.1 hA hB
      refine ⟨⟨fun _ => Or.inl hB, fun _ => h.1⟩, ?_, ?_⟩
      · simp [h.1, h.2.1]
      · simp [h.1, h.2.2]
    · have h := hc.2.2 hA hB
      refine ⟨⟨fun hf => ?_, fun hf => ?_⟩, ?_, ?_⟩
      · rw [h.1] at hf; cases hf
      · rcases hf with hf | hf
        · exact absurd hf hB
        · exact absurd ⟨hf.1, hf.2.1, hshape.2 hf.2.2⟩ hA
      · simp [h.1, h.2.1]
      · simp [h.1, h.2.2]

theorem validateField_examples :
    (validateField (emailField " ada@example.org ")).1 = true ∧
    (validateField (emailField "ada@example")).1 = false ∧
    (validateField (emailField "ada lovelace@example.org")).1 = false ∧
    (validateField (emailField "ada@@example.org")).1 = false ∧
    (validateField (emailField "   ")).2.fieldError = some "This field is required" ∧
    (validateField (textField "name" "Ada")).2.fieldError = none := by
  decide

/-! ## Submission -/

theorem validateField_disabled (f : Field) : (validateField f).2.disabled = f.disabled := by
  have e : ∀ (g : Field) (m : Option String), (showFieldError g m).disabled = g.disabled := by
    intro g m
    unfold showFieldError clearFieldError
    split
    · split <;> rfl
    · rfl
  simp only [validateField, e]
  split <;> rfl

theorem validateAllFields_iff (fields : List Field) :
    (validateAllFields fields).1 = true ↔
      ∀ f ∈ fields, f.required = true → (validateField f).1 = true := by
  induction fields with
  | nil => simp [validateAllFields]
  | cons x xs ih =>
    cases hx : x.required
    · simp [validateAllFields, hx, ih]
    · simp [validateAllFields, hx, ih]

theorem validateAllFields_disabled (fields : List Field) :
    (validateAllFields fields).2.map (fun f => f.disabled) = fields.map (fun f => f.disabled) := by
  induction fields with
  | nil => simp [validateAllFields]
  | cons x xs ih =>
    cases hx : x.required
    · simp [validateAllFields, hx, ih]
    · simp [validateAllFields, hx, ih, validateField_disabled]

theorem handleFormSubmission_blocked (response : Option Bool) (h : Handler)
    (hv : (validateAllFields h.form.fields).1 = false) :
    handleFormSubmission response h =
      showFormError "Please fix the errors above"
        { h with
          form := { h.form with fields := (validateAllFields h.form.fields).2 }
          calls := h.calls ++ [.validateAllFields] } := by
  simp [handleFormSubmission, hv]

/-- C20: `validateAllFields` returns true if and only if `validateField`
returns true for every required control; if a required control fails,
`handleFormSubmission` posts nothing, does not call `setFormLoading` (the
submit button and the disabled state of the controls are as before), shows the
form error `Please fix the errors above` and returns, whatever the network
would answer. -/
theorem submission_blocked (response : Option Bool) (h : Handler) :
    ((validateAllFields h.form.fields).1 = true ↔
      ∀ f ∈ h.form.fields, f.required = true → (validateField f).1 = true) ∧
    ((∃ f ∈ h.form.fields, f.required = true ∧ (validateField f).1 = false) →
      (handleFormSubmission response h).posted = h.posted ∧
      (handleFormSubmission response h).calls =
        h.calls ++ [.validateAllFields, .showFormError "Please fix the errors above"] ∧
      (handleFormSubmission response h).form.messages = [.error "Please fix the errors above"] ∧
      (handleFormSubmission response h).form.submitDisabled = h.form.submitDisabled ∧
      (handleFormSubmission response h).form.submitText = h.form.submitText ∧
      (handleFormSubmission response h).form.fields = (validateAllFields h.form.fields).2 ∧
      (handleFormSubmission response h).form.fields.map (fun f => f.disabled) =
        h.form.fields.map (fun f => f.disabled) ∧
      (handleFormSubmission response h).form.hidden = h.form.hidden ∧
      (handleFormSubmission response h).tracked = h.tracked) := by
  refine ⟨validateAllFields_iff h.form.fields, ?_⟩
  rintro ⟨f, hf, hreq, hbad⟩
  have hv : (validateAllFields h.form.fields).1 = false := by
    cases hb : (validateAllFields h.form.fields).1
    · rfl
    · have := (validateAllFields_iff h.form.fields).1 hb f hf hreq
      rw [hbad] at this
      cases this
  rw [handleFormSubmission_blocked response h hv]
  refine ⟨rfl, ?_, rfl, rfl, rfl, rfl, ?_, rfl, rfl⟩
  · simp [showFormError]
  · exact validateAllFields_disabled h.form.fields

theorem submission_blocked_witness :
    (handleFormSubmission (some true)
        (sampleHandler [textField "name" "", emailField "ada@example.org"])).posted = [] ∧
      (handleFormSubmission (some true)
        (sampleHandler [textField "name" "", emailField "ada@example.org"])).form.messages
        = [.error "Please fix the errors above"] :=
  ⟨((submission_blocked (some true)
      (sampleHandler [textField "name" "", emailField "ada@example.org"])).2
      ⟨textField "name" "", by decide, rfl, by decide⟩).1,
   ((submission_blocked (some true)
      (sampleHandler [textField "name" "", emailField "ada@example.org"])).2
      ⟨textField "name" "", by decide, rfl, by decide⟩).2.2.1⟩

/-! ## The posted body -/

theorem dataGet_dataSetIf_same (key : String) (v : Option String)
    (data : List (String × String)) :
    dataGet key (dataSetIf key v data) = if truthy v then v else dataGet key data := by
  cases v with
  | none => simp [dataSetIf, truthy]
  | some x =>
    by_cases hx : x = ""
    · simp [dataSetIf, truthy, hx]
    · simp [dataSetIf, truthy, hx, dataSet, dataGet, List.reverse_append, List.find?_cons]

theorem dataGet_dataSetIf_other (key key2 : String) (v : Option String)
    (data : List (String × String)) (h : key2 ≠ key) :
    dataGet key (dataSetIf key2 v data) = dataGet key data := by
  cases v with
  | none => simp [dataSetIf]
  | some x =>
    by_cases hx : x = ""
    · simp [dataSetIf, hx]
    · simp [dataSetIf, hx, dataSet, dataGet, List.reverse_append, List.find?_cons, h]

/-- Once `setFormLoading(true)` has run, `FormData` finds no control to
collect: every `input` and `select` is disabled. -/
theorem formDataEntries_loading (h : Handler) :
    formDataEntries (setFormLoading true h).form = [] := by
  simp [formDataEntries, setFormLoading, List.filter_eq_nil_iff]

/-- The body `handleFormSubmission` posts when every required control
validates: the six properties read from the form data are `undefined`; the
referral code and the UTM parameters are there when they are truthy. -/
theorem posted_body (response : Option Bool) (h : Handler)
    (hv : (validateAllFields h.form.fields).1 = true) :
    (handleFormSubmission response h).posted = h.posted ++
      [{ name := none, email := none, university := none, study_level := none,
         discord := none, team_status := none,
         referral := keepTruthy (getItem "ctf_referral" h.storage),
         utm_source := keepTruthy (searchGet "utm_source" h.params),
         utm_medium := keepTruthy (searchGet "utm_medium" h.params),
         utm_campaign := keepTruthy (searchGet "utm_campaign" h.params),
         subject := "ACUCyS Christmas CTF 2025 Registration" }] := by
  have hl := formDataEntries_loading
    { h with form := { h.form with fields := (validateAllFields h.form.fields).2 }
             calls := h.calls ++ [.validateAllFields] }
  have hpost : ∀ (m : String) (g : Handler), (showFormError m g).posted = g.posted :=
    fun _ _ => rfl
  have hload : ∀ (b : Bool) (g : Handler), (setFormLoading b g).posted = g.posted :=
    fun _ _ => rfl
  have hok : ∀ g : Handler, (trackRegistration (showFormSuccess g)).posted = g.posted :=
    fun _ => rfl
  have hst : ∀ (b : Bool) (g : Handler), (setFormLoading b g).storage = g.storage :=
    fun _ _ => rfl
  have hpa : ∀ (b : Bool) (g : Handler), (setFormLoading b g).params = g.params :=
    fun _ _ => rfl
  simp only [handleFormSubmission, hv, Bool.not_true, Bool.false_eq_true, if_false, hl, hload]
  have hbody : ∀ g : Handler,
      (match response with
        | some true => trackRegistration (showFormSuccess g)
        | _ => showFormError "Registration failed. Please try again." g).posted = g.posted := by
    intro g
    split
    · exact hok g
    · exact hpost _ g
  rw [hbody]
  simp only [hst, hpa, bodyOf]
  congr 2
  have hempty : ∀ key : String, dataGet key [] = none := fun _ => rfl
  simp [dataGet_dataSetIf_same, dataGet_dataSetIf_other, keepTruthy, hempty]

/-- C21: with the six controls of the registration form filled in and valid,
a stored referral code and a `utm_source` parameter, the body
`handleFormSubmission` posts has none of `name`, `email`, `university`,
`study_level`, `discord`, `team_status`: `setFormLoading(true)` has disabled
every control before `getFormData` builds the `FormData`. The referral code,
the UTM parameter and `_subject` are in the body. -/
theorem posted_body_lacks_form_values :
    (validateAllFields registrationHandler.form.fields).1 = true ∧
    (registrationHandler.form.fields.map fun f => (f.name, f.value)) =
      [("name", "Ada Lovelace"), ("email", "ada@example.org"),
       ("university", "Monash University"), ("study-level", "Undergraduate"),
       ("discord", "@ada"), ("team-status", "solo")] ∧
    (handleFormSubmission (some true) registrationHandler).posted =
      [{ name := none, email := none, university := none, study_level := none,
         discord := none, team_status := none, referral := some "abc123",
         utm_source := some "newsletter", utm_medium := none, utm_campaign := none,
         subject := "ACUCyS Christmas CTF 2025 Registration" }] ∧
    (handleFormSubmission (some true) registrationHandler).calls =
      [.validateAllFields, .setFormLoading true, .getFormData,
       .submitForm
         { name := none, email := none, university := none, study_level := none,
           discord := none, team_status := none, referral := some "abc123",
           utm_source := some "newsletter", utm_medium := none, utm_campaign := none,
           subject := "ACUCyS Christmas CTF 2025 Registration" },
       .showFormSuccess, .trackRegistration, .setFormLoading false] := by
  decide

/-! ## The discord handle -/

theorem dropWhile_head (p : Char → Bool) (l : List Char) :
    ∀ x xs, l.dropWhile p = x :: xs → p x = false := by
  induction l with
  | nil => intro x xs h; simp at h
  | cons y ys ih =>
    intro x xs h
    by_cases hy : p y = true
    · rw [List.dropWhile_cons_of_pos hy] at h
      exact ih x xs h
    · rw [List.dropWhile_cons_of_neg hy] at h
      cases h
      simpa using hy

theorem dropWhile_of_head (p : Char → Bool) (x : Char) (xs : List Char) (h : p x = false) :
    (x :: xs).dropWhile p = x :: xs := by
  rw [List.dropWhile_cons_of_neg (by simp [h])]

/-- A trimmed string that is not empty starts and ends with a character that
is not whitespace. -/
theorem trim_ends (v : String) (h : (trim v).data ≠ []) :
    ∃ (first last : Char) (init tail : List Char),
      (trim v).data = first :: tail ∧ (trim v).data.reverse = last :: init ∧
      isWhiteSpace first = false ∧ isWhiteSpace last = false := by
  have hd : (trim v).data =
      ((v.data.dropWhile isWhiteSpace).reverse.dropWhile isWhiteSpace).reverse := rfl
  rw [hd] at h ⊢
  generalize hL : v.data.dropWhile isWhiteSpace = L at h ⊢
  generalize hR : L.reverse.dropWhile isWhiteSpace = R at h ⊢
  have hsplit : L.reverse.takeWhile isWhiteSpace ++ R = L.reverse := by
    rw [← hR]; exact List.takeWhile_append_dropWhile _ _
  have hpre : L = R.reverse ++ (L.reverse.takeWhile isWhiteSpace).reverse := by
    have := congrArg List.reverse hsplit
    simpa using this.symm
  cases hRc : R with
  | nil => rw [hRc] at h; simp at h
  | cons last init =>
    have hlast : isWhiteSpace last = false := dropWhile_head _ _ last init (by rw [hR, hRc])
    cases hrev : (last :: init).reverse with
    | nil => simp at hrev
    | cons first tail =>
      have hback : tail.reverse ++ [first] = last :: init := by
        have := congrArg List.reverse hrev
        simpa using this.symm
      refine ⟨first, last, init, tail, rfl, by simpa using hback, ?_, hlast⟩
      rw [hRc, hrev] at hpre
      exact dropWhile_head _ _ first _ (by rw [hL, hpre]; rfl)

theorem trim_at_trim (v : String) (h : (trim v).data ≠ []) :
    trim ("@" ++ trim v) = "@" ++ trim v := by
  obtain ⟨first, last, init, tail, h1, h2, hf, hl⟩ := trim_ends v h
  have hat : isWhiteSpace '@' = false := by decide
  have hdata : ("@" ++ trim v).data = '@' :: (trim v).data := rfl
  apply String.ext
  show ((("@" ++ trim v).data.dropWhile isWhiteSpace).reverse.dropWhile isWhiteSpace).reverse
    = ("@" ++ trim v).data
  rw [hdata, dropWhile_of_head _ _ _ hat, List.reverse_cons, h2, List.cons_append,
    dropWhile_of_head _ _ _ hl, ← List.cons_append, ← h2, ← List.reverse_cons,
    List.reverse_reverse]

/-- The value `validateField` leaves in the field. -/
theorem validateField_value (f : Field) :
    (validateField f).2.value =
      (if f.name = "discord" ∧ trim f.value ≠ "" ∧ startsWithChar (trim f.value) '@' = false
        then "@" ++ trim f.value else f.value) ∧
    (validateField f).2.name = f.name := by
  have e : ∀ (g : Field) (m : Option String),
      (showFieldError g m).value = g.value ∧ (showFieldError g m).name = g.name := by
    intro g m
    unfold showFieldError clearFieldError
    split
    · split <;> exact ⟨rfl, rfl⟩
    · exact ⟨rfl, rfl⟩
  simp only [validateField, (e _ _).1, (e _ _).2]
  by_cases h1 : f.name = "discord" <;> by_cases h2 : trim f.value = "" <;>
    cases h3 : startsWithChar (trim f.value) '@' <;> simp [h1, h2, h3]

/-- C22: for a field named `discord`, `validateField` sets the value to `@`
followed by the trimmed value when the trimmed value is not empty and does not
start with `@`, and leaves the value as it is when the trimmed value is empty
or starts with `@`; validating twice leaves the value that validating once
leaves, and a value that does not start with `@@` is never turned into one
that does. -/
theorem discord_normalisation (f : Field) (hn : f.name = "discord") :
    (trim f.value ≠ "" → startsWithChar (trim f.value) '@' = false →
      (validateField f).2.value = "@" ++ trim f.value) ∧
    (trim f.value = "" ∨ startsWithChar (trim f.value) '@' = true →
      (validateField f).2.value = f.value) ∧
    (validateField (validateField f).2).2.value = (validateField f).2.value ∧
    (startsWithAtAt f.value = false → startsWithAtAt (validateField f).2.value = false) := by
  have hv := validateField_value f
  have hv2 := validateField_value (validateField f).2
  by_cases hc : trim f.value ≠ "" ∧ startsWithChar (trim f.value) '@' = false
  · have e1 : (validateField f).2.value = "@" ++ trim f.value := by
      rw [hv.1, if_pos ⟨hn, hc.1, hc.2⟩]
    have hne : (trim f.value).data ≠ [] := by
      intro h0
      exact hc.1 (String.ext h0)
    have ht : trim ("@" ++ trim f.value) = "@" ++ trim f.value := trim_at_trim f.value hne
    have hs : startsWithChar ("@" ++ trim f.value) '@' = true := by
      simp [startsWithChar]
    refine ⟨fun _ _ => e1, fun h => ?_, ?_, fun _ => ?_⟩
    · rcases h with h | h
      · exact absurd h hc.1
      · rw [hc.2] at h; cases h
    · rw [hv2.1, e1, ht, hs]
      simp
    · rw [e1]
      obtain ⟨first, last, init, tail, h1, _, _, _⟩ := trim_ends f.value hne
      have hfirst : first ≠ '@' := by
        intro hf
        have : startsWithChar (trim f.value) '@' = true := by
          simp [startsWithChar, h1, hf]
        rw [hc.2] at this
        cases this
      have hdata : ("@" ++ trim f.value).data = '@' :: first :: tail := by
        show '@' :: (trim f.value).data = _
        rw [h1]
      simp [startsWithAtAt, hdata, hfirst]
  · have e1 : (validateField f).2.value = f.value := by
      rw [hv.1, if_neg (fun h => hc ⟨h.2.1, h.2.2⟩)]
    refine ⟨fun h1 h2 => absurd ⟨h1, h2⟩ hc, fun _ => e1, ?_, fun h => ?_⟩
    · rw [hv2.1, e1, hv.2, if_neg (fun h => hc ⟨h.2.1, h.2.2⟩)]
    · rw [e1]; exact h

theorem discord_normalisation_witness :
    (validateField (textField "discord" "  ada  ")).2.value = "@" ++ trim "  ada  " ∧
      (validateField (validateField (textField "discord" "  ada  ")).2).2.value
        = (validateField (textField "discord" "  ada  ")).2.value ∧
      (validateField (textField "discord" " @ada")).2.value = " @ada" :=
  ⟨(discord_normalisation (textField "discord" "  ada  ") rfl).1 (by decide) (by decide),
   (discord_normalisation (textField "discord" "  ada  ") rfl).2.2.1,
   (discord_normalisation (textField "discord" " @ada") rfl).2.1 (Or.inr (by decide))⟩

end FormHandler
